import Mathlib

/-!
# The HTTP client layer `client/src/utils/api.js`

A shallow embedding of the decision logic of the module: the sales-report
normalizer `getSalesReport` (input validation, response reshaping, failure
classification), the activity-report normalizer `getActivityReport`, and the
query construction of the filtered list operations `getStockIns` and
`getStockOuts`.

JavaScript values are embedded as the inductive type `JSVal`.  The pieces of
the JavaScript host that the module calls but does not define (number
printing, the numeric-literal scanner behind `parseFloat`, `Date`,
`Math.random`) are the fields of a `Host`; the HTTP transport `api.get` is a
function argument, and every request handed to it is recorded in the result.
An asynchronous function is embedded by the settlement of its promise:
`Except.ok` when it resolves, `Except.error` when it rejects.  Console output
and the timer that fires the cancellation have no effect on that settlement
other than through the transport's rejection, and are left out.
-/

namespace BusinessApp

set_option maxRecDepth 20000

/-! ## Values -/

/-- JavaScript numbers, the IEEE-754 binary64 values: `NaN`, the two
infinities, and the finite doubles, each carried as the rational number it
denotes.  The sign of zero is not represented; no operation of the module
observes it. -/
inductive JSNum where
  | nan
  | inf (neg : Bool)
  | fin (q : ℚ)
  deriving DecidableEq

/-- The quotient `n / d` rounded to the nearest natural number, a tie going to
the even one. -/
def roundHalfEven (n d : Nat) : Nat :=
  if 2 * (n % d) < d then n / d
  else if d < 2 * (n % d) then n / d + 1
  else if n / d % 2 = 0 then n / d else n / d + 1

/-- The number of halvings that bring `n` below `2`, with at most `fuel`
steps. -/
def halvings : Nat → Nat → Nat
  | 0, _ => 0
  | fuel + 1, n => if n < 2 then 0 else halvings fuel (n / 2) + 1

/-- The binary logarithm of a positive natural number, rounded down. -/
def floorLog2 (n : Nat) : Nat := halvings n n

/-- The exponent `e` with `2 ^ e ≤ n / d < 2 ^ (e + 1)`, for positive `n` and
`d`. -/
def binaryExponent (n d : Nat) : Int :=
  if floorLog2 d ≤ floorLog2 n then
    (if n < d * 2 ^ (floorLog2 n - floorLog2 d)
      then ((floorLog2 n - floorLog2 d : Nat) : Int) - 1
      else ((floorLog2 n - floorLog2 d : Nat) : Int))
  else
    (if n * 2 ^ (floorLog2 d - floorLog2 n) < d
      then - ((floorLog2 d - floorLog2 n : Nat) : Int) - 1
      else - ((floorLog2 d - floorLog2 n : Nat) : Int))

/-- Rounding of a rational number to binary64, to nearest with ties to even:
the number is written as `m * 2 ^ (e - 52)` with `e` its binary exponent, not
below `-1022` (the subnormal range), and `m` is rounded to a natural number;
a result of magnitude `2 ^ 1024` or more is an infinity. -/
def roundDouble (q : ℚ) : JSNum :=
  if q = 0 then .fin 0
  else if 1024 ≤ max (binaryExponent q.num.natAbs q.den) (-1022)
      ∨ (max (binaryExponent q.num.natAbs q.den) (-1022) = 1023
        ∧ 2 ^ 53 ≤ roundHalfEven q.num.natAbs (q.den * 2 ^ 971)) then
    .inf (decide (q < 0))
  else if 52 ≤ max (binaryExponent q.num.natAbs q.den) (-1022) then
    .fin ((if q < 0 then -1 else 1)
      * (roundHalfEven q.num.natAbs
          (q.den * 2 ^ (max (binaryExponent q.num.natAbs q.den) (-1022) - 52).toNat) : ℚ)
      * (2 : ℚ) ^ (max (binaryExponent q.num.natAbs q.den) (-1022) - 52))
  else
    .fin ((if q < 0 then -1 else 1)
      * (roundHalfEven
          (q.num.natAbs * 2 ^ (52 - max (binaryExponent q.num.natAbs q.den) (-1022)).toNat)
          q.den : ℚ)
      * (2 : ℚ) ^ (max (binaryExponent q.num.natAbs q.den) (-1022) - 52))

/-- A rational number is a double when rounding leaves it unchanged. -/
def IsDouble (q : ℚ) : Prop := roundDouble q = .fin q

instance (q : ℚ) : Decidable (IsDouble q) := inferInstanceAs (Decidable (roundDouble q = .fin q))

namespace JSNum

/-- ToBoolean on a number: `0` and `NaN` are falsy. -/
def truthy : JSNum → Bool
  | .nan => false
  | .inf _ => true
  | .fin q => decide (q ≠ 0)

/-- The numeric `+` operator: the exact sum of two finite operands is rounded
to binary64. -/
def add : JSNum → JSNum → JSNum
  | .nan, _ => .nan
  | _, .nan => .nan
  | .inf a, .inf b => if a = b then .inf a else .nan
  | .inf a, .fin _ => .inf a
  | .fin _, .inf b => .inf b
  | .fin p, .fin q => roundDouble (p + q)

end JSNum

/-- JavaScript values that can reach the module: the JSON values decoded by
the transport, plus `undefined`.  An object is the list of its properties in
insertion order; a property read takes the first entry with the key. -/
inductive JSVal where
  | undefined
  | null
  | bool (b : Bool)
  | num (n : JSNum)
  | str (s : String)
  | arr (items : List JSVal)
  | obj (fields : List (String × JSVal))

/-- The properties of an object. -/
abbrev Fields := List (String × JSVal)

/-- ToBoolean: `undefined`, `null`, `false`, `0`, `NaN` and `""` are falsy. -/
def truthy : JSVal → Bool
  | .undefined => false
  | .null => false
  | .bool b => b
  | .num n => n.truthy
  | .str s => decide (s ≠ "")
  | .arr _ => true
  | .obj _ => true

/-- The operator `a || b` on already evaluated operands. -/
def orElse (a b : JSVal) : JSVal := if truthy a then a else b

/-- The test `Array.isArray(v)`. -/
def isArray : JSVal → Bool
  | .arr _ => true
  | _ => false

/-- The test `v && typeof v === 'object'`. -/
def isObjectShaped : JSVal → Bool
  | .arr _ => true
  | .obj _ => true
  | _ => false

/-- The test `v === s` against a string. -/
def strictEqStr (v : JSVal) (s : String) : Bool :=
  match v with
  | .str t => t == s
  | _ => false

/-- Property read on an object given by its properties; a missing property
reads as `undefined`. -/
def getField (fs : Fields) (k : String) : JSVal := (fs.lookup k).getD .undefined

/-- Property write `o[k] = v`: replaces the value of an existing property in
place, otherwise adds the property at the end. -/
def setField : Fields → String → JSVal → Fields
  | [], k, v => [(k, v)]
  | (k0, v0) :: rest, k, v =>
    if k0 = k then (k, v) :: rest else (k0, v0) :: setField rest k v

/-- The index keys `"0"`, ..., `"n-1"`. -/
def indexKeys (n : Nat) : List String := (List.range n).map toString

/-- The position named by an index key below `n`, if any. -/
def indexOfKey (n : Nat) (k : String) : Option Nat :=
  (List.range n).find? (fun i => toString i == k)

/-- Property read `v.k` for a value `v` other than `undefined` and `null`.
Only own properties are looked up; the module reads no name that a built-in
prototype defines. -/
def getProp : JSVal → String → JSVal
  | .obj fs, k => getField fs k
  | .arr xs, k =>
    if k = "length" then .num (.fin xs.length) else
    match indexOfKey xs.length k with
    | some i => xs.getD i .undefined
    | none => .undefined
  | .str s, k =>
    if k = "length" then .num (.fin s.data.length) else
    match indexOfKey s.data.length k with
    | some i => match s.data[i]? with
      | some c => .str (String.singleton c)
      | none => .undefined
    | none => .undefined
  | _, _ => .undefined

/-- Optional chaining `v?.k`. -/
def optProp : JSVal → String → JSVal
  | .undefined, _ => .undefined
  | .null, _ => .undefined
  | v, k => getProp v k

/-- The own enumerable property keys of a value, as the spread operator
enumerates them. -/
def ownKeys : JSVal → List String
  | .obj fs => fs.map Prod.fst
  | .arr xs => indexKeys xs.length
  | .str s => indexKeys s.data.length
  | _ => []

/-- Object spread `{ ...target, ...src }` onto already built properties: each
own enumerable key of `src` is read and written to the target, in order. -/
def spread (target : Fields) (src : JSVal) : Fields :=
  (ownKeys src).foldl (fun acc k => setField acc k (getProp src k)) target

/-! ## Thrown values and string conversion -/

/-- The value of `new Error(msg)` for a string `msg`, given by its `message`.
The class of an error and its host-specific `stack` are not recorded. -/
def newError (msg : String) : Fields := [("message", .str msg)]

/-- The `TypeError` raised when an object has no usable `toString` or
`valueOf`. -/
def cannotConvert : Fields := newError "Cannot convert object to primitive value"

mutual
/-- The abstract operation ToString.  `f` prints numbers.  A plain object
prints as `[object Object]` unless it has an own property `toString`, which in
a decoded JSON value is never callable: conversion then falls through to
`valueOf` and throws.  An array prints as the comma-joined print of its
elements. -/
def toStringJS (f : JSNum → String) : JSVal → Except Fields String
  | .undefined => .ok "undefined"
  | .null => .ok "null"
  | .bool b => .ok (if b then "true" else "false")
  | .num n => .ok (f n)
  | .str s => .ok s
  | .arr xs => joinJS f xs
  | .obj fs => if fs.any (fun p => p.1 == "toString") then .error cannotConvert
      else .ok "[object Object]"
termination_by structural v => v
/-- The method `Array.prototype.join` with separator `,`: `undefined` and
`null` elements print as the empty string, every other element by ToString. -/
def joinJS (f : JSNum → String) : List JSVal → Except Fields String
  | [] => .ok ""
  | x :: rest =>
    match (match x with
        | .undefined => .ok ""
        | .null => .ok ""
        | .bool b => toStringJS f (.bool b)
        | .num n => toStringJS f (.num n)
        | .str s => toStringJS f (.str s)
        | .arr xs => toStringJS f (.arr xs)
        | .obj fs => toStringJS f (.obj fs) : Except Fields String),
      joinJS f rest with
    | .error e, _ => .error e
    | .ok _, .error e => .error e
    | .ok a, .ok b => .ok (if rest.isEmpty then a else a ++ "," ++ b)
termination_by structural xs => xs
end

/-! ## Host and transport -/

/-- The parts of the JavaScript host the module relies on. -/
structure Host where
  /-- Number-to-string conversion. -/
  numToString : JSNum → String
  /-- The global `parseFloat` on an argument that is already a string. -/
  parseFloatStr : String → JSNum
  /-- The expression `new Date(v).toISOString()`, which throws when `v` does
  not denote a date. -/
  toISOString : JSVal → Except Fields String
  /-- The result of the call `Math.random()` made for the entry at a
  position. -/
  random : Nat → JSNum
  /-- The result of `new Date().toISOString()` evaluated for the entry at a
  position. -/
  now : Nat → String

/-- The global `parseFloat`: convert the argument to a string, then scan it. -/
def parseFloat (h : Host) (v : JSVal) : Except Fields JSNum :=
  match toStringJS h.numToString v with
  | .ok s => .ok (h.parseFloatStr s)
  | .error e => .error e

/-- A request handed to `api.get`: the URL and the `params` and `timeout`
options (`params` is empty when the call passes none).  The cancel token is
not part of the record: a cancellation is one of the ways the transport
rejects. -/
structure Request where
  url : String
  params : Fields
  timeout : Option Nat

/-- The transport `api.get`: it resolves with a response whose `data` is
returned here, or rejects with an error object, given by the properties that
can be read on it. -/
abbrev Transport := Request → Except Fields JSVal

/-- The result of running an asynchronous operation: the promise resolves
(`ok`) or rejects (`error`), and `calls` lists the requests handed to the
transport. -/
structure Run (α : Type) where
  outcome : Except Fields α
  calls : List Request

/-! ## `getSalesReport` -/

/-- The method call `s.split('T')[0]`: the part before the first `T`. -/
def beforeT (s : String) : String := String.mk (s.data.takeWhile (fun c => c != 'T'))

/-- The local function `formatDate`: any failure of the conversion is replaced
by the error `Invalid date format`. -/
def formatDate (h : Host) (date : JSVal) : Except Fields String :=
  match h.toISOString date with
  | .ok iso => .ok (beforeT iso)
  | .error _ => .error (newError "Invalid date format. Please use valid date objects")

/-- The object literal `result` built from the response body. -/
def salesResult (responseData : JSVal) : JSVal :=
  .obj (spread
    [("success", getProp responseData "success"),
     ("message", getProp responseData "message"),
     ("totalSales", orElse (getProp responseData "totalSales") (.num (.fin 0))),
     ("totalRevenue", orElse (getProp responseData "totalRevenue") (.num (.fin 0))),
     ("productSales",
        if isArray (getProp responseData "productSales")
        then getProp responseData "productSales" else .arr []),
     ("dailySales",
        if isArray (getProp responseData "dailySales")
        then getProp responseData "dailySales" else .arr [])]
    responseData)

/-- The request issued by `getSalesReport`. -/
def salesRequest (formattedStartDate formattedEndDate : String) : Request :=
  { url := "/api/reports/sales"
    params := [("startDate", .str formattedStartDate), ("endDate", .str formattedEndDate)]
    timeout := some 15000 }

/-- The `try` block of `getSalesReport`. -/
def salesReportTry (h : Host) (api : Transport) (startDate endDate : JSVal) : Run JSVal :=
  if !truthy startDate || !truthy endDate then
    ⟨.error (newError "Both startDate and endDate are required"), []⟩
  else
    match formatDate h startDate with
    | .error e => ⟨.error e, []⟩
    | .ok formattedStartDate =>
      match formatDate h endDate with
      | .error e => ⟨.error e, []⟩
      | .ok formattedEndDate =>
        let req := salesRequest formattedStartDate formattedEndDate
        match api req with
        | .error e => ⟨.error e, [req]⟩
        | .ok responseData =>
          if !truthy responseData then
            ⟨.error (newError "Empty response from server"), [req]⟩
          else ⟨.ok (salesResult responseData), [req]⟩

/-- The library function `axios.isCancel`: `!!(value && value.__CANCEL__)`. -/
def isCancel (error : Fields) : Bool := truthy (getField error "__CANCEL__")

/-- The library function `axios.isAxiosError`: the value is an object whose
`isAxiosError` is `true`. -/
def isAxiosError (error : Fields) : Bool :=
  match getField error "isAxiosError" with
  | .bool true => true
  | _ => false

/-- The pair `errorMessage`, `errorDetails` computed by the `catch` block. -/
structure Classification where
  errorMessage : JSVal
  errorDetails : Fields

/-- The `if` chain of the `catch` block of `getSalesReport`.  The only step
that can throw is the string conversion of `status` in the template
literal. -/
def classify (h : Host) (error : Fields) : Except Fields Classification :=
  if isCancel error then
    .ok ⟨.str "Request was cancelled", [("reason", .str "cancelled")]⟩
  else if truthy (getField error "response") then
    let status := getProp (getField error "response") "status"
    let data := getProp (getField error "response") "data"
    let details : Fields :=
      [("status", status), ("data", orElse data (.obj [])),
       ("headers", getProp (getField error "response") "headers")]
    if truthy (optProp data "message") then .ok ⟨optProp data "message", details⟩
    else
      match toStringJS h.numToString status with
      | .ok s => .ok ⟨.str ("Server responded with status " ++ s), details⟩
      | .error e => .error e
  else if truthy (getField error "request") then
    .ok ⟨.str "No response received from server", [("request", getField error "request")]⟩
  else
    .ok ⟨orElse (getField error "message") (.str "Error setting up request"),
         [("message", getField error "message")]⟩

/-- The error object `formattedError` with the three properties assigned to
it. -/
def formattedError (msg : String) (error : Fields) : Fields :=
  [("message", .str msg),
   ("isAxiosError", .bool (isAxiosError error)),
   ("response", getField error "response"),
   ("request", getField error "request")]

/-- The `catch` block of `getSalesReport`; it always throws, and the value it
throws is returned here.  `new Error(errorMessage)` converts its argument to a
string, which can itself throw. -/
def salesReportCatch (h : Host) (error : Fields) : Fields :=
  match classify h error with
  | .error e => e
  | .ok c =>
    match toStringJS h.numToString c.errorMessage with
    | .error e => e
    | .ok msg => formattedError msg error

/-- The operation `getSalesReport(startDate, endDate)`. -/
def getSalesReport (h : Host) (api : Transport) (startDate endDate : JSVal) : Run JSVal :=
  match (salesReportTry h api startDate endDate).outcome with
  | .ok v => ⟨.ok v, (salesReportTry h api startDate endDate).calls⟩
  | .error e =>
    ⟨.error (salesReportCatch h e), (salesReportTry h api startDate endDate).calls⟩

/-! ## `getActivityReport` -/

/-- The normalized activity built by the `map` callback of
`getActivityReport`.  `amount` is the value of `parseFloat(..) || 0`, a
number in both branches. -/
structure Activity where
  _id : JSVal
  date : JSVal
  activityType : JSVal
  details : JSVal
  amount : JSNum
  status : JSVal

/-- An element of `activityDistribution`. -/
structure DistributionEntry where
  activityType : String
  count : Nat
  deriving DecidableEq

/-- The object returned by `getActivityReport`. -/
structure ActivityReport where
  totalActivities : Nat
  totalSales : JSNum
  totalDeliveries : Nat
  activityDistribution : List DistributionEntry
  data : List Activity

/-- The constant `activityTypes`. -/
def activityTypes : List String := ["Sale", "Delivery", "Stock Update", "Payment", "Return"]

/-- The `map` callback of `validActivities`, applied to the entry at position
`i` of the filtered sequence.  `Math.random()` and `new Date()` are evaluated
only when the default is taken; `parseFloat` can throw. -/
def normalizeActivity (h : Host) (i : Nat) (activity : JSVal) : Except Fields Activity :=
  match parseFloat h (getProp activity "amount") with
  | .error e => .error e
  | .ok n =>
    .ok { _id := orElse (getProp activity "_id") (.str ("temp-" ++ h.numToString (h.random i)))
          date := orElse (getProp activity "date") (.str (h.now i))
          activityType := orElse (getProp activity "activityType") (.str "Unknown")
          details := orElse (getProp activity "details") (.str "No details available")
          amount := if n.truthy then n else .fin 0
          status := orElse (getProp activity "status") (.str "Completed") }

/-- The method `map` with the callback `normalizeActivity`, from position `i`
on: the first callback that throws ends the whole `map`. -/
def normalizeFrom (h : Host) : Nat → List JSVal → Except Fields (List Activity)
  | _, [] => .ok []
  | i, activity :: rest =>
    match normalizeActivity h i activity with
    | .error e => .error e
    | .ok a =>
      match normalizeFrom h (i + 1) rest with
      | .error e => .error e
      | .ok others => .ok (a :: others)

/-- The expression `Array.isArray(response.data) ? response.data : []`. -/
def entriesOf : JSVal → List JSVal
  | .arr items => items
  | _ => []

/-- The body of the `try` block of `getActivityReport` after the transport
call has resolved with `responseData`. -/
def activityReportTry (h : Host) (responseData : JSVal) : Except Fields ActivityReport :=
  let activities : List JSVal := entriesOf responseData
  let activityDistribution : List DistributionEntry :=
    activityTypes.map (fun type =>
      { activityType := type
        count := (activities.filter (fun a => strictEqStr (optProp a "activityType") type)).length })
  match normalizeFrom h 0 (activities.filter isObjectShaped) with
  | .error e => .error e
  | .ok validActivities =>
    .ok { totalActivities := validActivities.length
          totalSales :=
            (validActivities.filter (fun a => strictEqStr a.activityType "Sale")).foldl
              (fun sum a => JSNum.add sum a.amount) (.fin 0)
          totalDeliveries :=
            (validActivities.filter (fun a => strictEqStr a.activityType "Delivery")).length
          activityDistribution := activityDistribution
          data := validActivities }

/-- The object returned by the `catch` block of `getActivityReport`. -/
def emptyActivityReport : ActivityReport :=
  { totalActivities := 0
    totalSales := .fin 0
    totalDeliveries := 0
    activityDistribution := []
    data := [] }

/-- The request issued by `getActivityReport`: the two arguments are forwarded
as they are. -/
def activityRequest (startDate endDate : JSVal) : Request :=
  { url := "/api/reports/activity"
    params := [("startDate", startDate), ("endDate", endDate)]
    timeout := none }

/-- The operation `getActivityReport(startDate, endDate)`. -/
def getActivityReport (h : Host) (api : Transport) (startDate endDate : JSVal) :
    Run ActivityReport :=
  match api (activityRequest startDate endDate) with
  | .error _ => ⟨.ok emptyActivityReport, [activityRequest startDate endDate]⟩
  | .ok responseData =>
    match activityReportTry h responseData with
    | .ok report => ⟨.ok report, [activityRequest startDate endDate]⟩
    | .error _ => ⟨.ok emptyActivityReport, [activityRequest startDate endDate]⟩

/-! ## `getStockIns` and `getStockOuts` -/

/-- The UTF-8 bytes of a character. -/
def utf8Bytes (c : Char) : List Nat :=
  if c.toNat < 0x80 then [c.toNat]
  else if c.toNat < 0x800 then [0xC0 + c.toNat / 64, 0x80 + c.toNat % 64]
  else if c.toNat < 0x10000 then
    [0xE0 + c.toNat / 4096, 0x80 + c.toNat / 64 % 64, 0x80 + c.toNat % 64]
  else
    [0xF0 + c.toNat / 262144, 0x80 + c.toNat / 4096 % 64, 0x80 + c.toNat / 64 % 64,
     0x80 + c.toNat % 64]

/-- An upper-case hexadecimal digit. -/
def hexDigit (n : Nat) : Char := if n < 10 then Char.ofNat (48 + n) else Char.ofNat (55 + n)

/-- The `application/x-www-form-urlencoded` serialization of one byte: a space
becomes `+`, the bytes of `*-._`, digits and ASCII letters stand for
themselves, every other byte is percent-encoded. -/
def formEncodeByte (b : Nat) : List Char :=
  if b = 0x20 then ['+']
  else if b = 0x2A ∨ b = 0x2D ∨ b = 0x2E ∨ b = 0x5F ∨ (0x30 ≤ b ∧ b ≤ 0x39)
      ∨ (0x41 ≤ b ∧ b ≤ 0x5A) ∨ (0x61 ≤ b ∧ b ≤ 0x7A) then [Char.ofNat b]
  else ['%', hexDigit (b / 16), hexDigit (b % 16)]

/-- The URL encoding applied by `URLSearchParams` to a name or a value. -/
def formEncode (s : String) : String :=
  String.mk ((s.data.map (fun c => ((utf8Bytes c).map formEncodeByte).flatten)).flatten)

/-- The method `URLSearchParams.prototype.toString` on the list of
name-value pairs. -/
def searchParamsToString (queryParams : List (String × String)) : String :=
  "&".intercalate (queryParams.map (fun p => formEncode p.1 ++ "=" ++ formEncode p.2))

/-- One line `if (filters.key) queryParams.append('key', filters.key)`:
`append` converts the value to a string. -/
def appendFilter (h : Host) (filters : JSVal) (queryParams : List (String × String))
    (key : String) : Except Fields (List (String × String)) :=
  if truthy (getProp filters key) then
    match toStringJS h.numToString (getProp filters key) with
    | .ok value => .ok (queryParams ++ [(key, value)])
    | .error e => .error e
  else .ok queryParams

/-- The default parameter `filters = {}`. -/
def defaultFilters : JSVal → JSVal
  | .undefined => .obj []
  | v => v

/-- A request made by `api.get(url)` with no options. -/
def plainRequest (url : String) : Request := { url := url, params := [], timeout := none }

/-- The tail shared by the list operations: request the URL and return the
decoded body; a transport error propagates. -/
def fetchData (api : Transport) (url : String) : Run JSVal :=
  match api (plainRequest url) with
  | .ok data => ⟨.ok data, [plainRequest url]⟩
  | .error e => ⟨.error e, [plainRequest url]⟩

/-- The operation `getStockIns(filters)`.  Reading a property of `null`
throws. -/
def getStockIns (h : Host) (api : Transport) (filters : JSVal) : Run JSVal :=
  match defaultFilters filters with
  | .null => ⟨.error (newError "Cannot read properties of null (reading 'startDate')"), []⟩
  | fs =>
    match (do
        let q ← appendFilter h fs [] "startDate"
        let q ← appendFilter h fs q "endDate"
        let q ← appendFilter h fs q "supplier"
        let q ← appendFilter h fs q "product"
        appendFilter h fs q "paymentStatus" : Except Fields (List (String × String))) with
    | .error e => ⟨.error e, []⟩
    | .ok queryParams => fetchData api ("/api/stock-ins?" ++ searchParamsToString queryParams)

/-- The operation `getStockOuts(filters)`. -/
def getStockOuts (h : Host) (api : Transport) (filters : JSVal) : Run JSVal :=
  match defaultFilters filters with
  | .null => ⟨.error (newError "Cannot read properties of null (reading 'startDate')"), []⟩
  | fs =>
    match (do
        let q ← appendFilter h fs [] "startDate"
        let q ← appendFilter h fs q "endDate"
        let q ← appendFilter h fs q "product"
        appendFilter h fs q "customer" : Except Fields (List (String × String))) with
    | .error e => ⟨.error e, []⟩
    | .ok queryParams => fetchData api ("/api/stock-outs?" ++ searchParamsToString queryParams)

/-- The scalar values a filter can take. -/
inductive Scalar where
  | undefined
  | null
  | bool (b : Bool)
  | num (n : JSNum)
  | str (s : String)

/-- A scalar as a JavaScript value. -/
def Scalar.toJS : Scalar → JSVal
  | .undefined => .undefined
  | .null => .null
  | .bool b => .bool b
  | .num n => .num n
  | .str s => .str s

/-- A FilterSet: a mapping of named filter keys to scalar values. -/
abbrev FilterSet := List (String × Scalar)

/-- A FilterSet as the object passed to the list operations. -/
def FilterSet.toJS (fs : FilterSet) : JSVal := .obj (fs.map (fun p => (p.1, p.2.toJS)))

/-- The value a FilterSet gives to a key, `undefined` when the key is absent. -/
def FilterSet.value (fs : FilterSet) (key : String) : Scalar :=
  (fs.lookup key).getD .undefined

/-- The string form of a scalar. -/
def Scalar.print (f : JSNum → String) : Scalar → String
  | .undefined => "undefined"
  | .null => "null"
  | .bool b => if b then "true" else "false"
  | .num n => f n
  | .str s => s

/-- The query string that holds, for the given keys in order, one parameter
`key=value` for every key whose value is truthy and nothing for the others. -/
def expectedQuery (h : Host) (fs : FilterSet) (keys : List String) : String :=
  "&".intercalate
    ((keys.filter (fun k => truthy (fs.value k).toJS)).map
      (fun k => k ++ "=" ++ formEncode ((fs.value k).print h.numToString)))

/-! ## A sample host

One concrete host, used to evaluate the operations on closed inputs. -/

/-- Decimal digits. -/
def isDigit (c : Char) : Bool := decide (48 ≤ c.toNat) && decide (c.toNat ≤ 57)

/-- The number written by a run of decimal digits. -/
def digitsValue (cs : List Char) : Nat := cs.foldl (fun n c => 10 * n + (c.toNat - 48)) 0

/-- White space and line terminators, as stripped by `parseFloat`. -/
def isWhiteSpace (c : Char) : Bool :=
  [0x09, 0x0A, 0x0B, 0x0C, 0x0D, 0x20, 0xA0, 0x1680, 0x2028, 0x2029, 0x202F, 0x205F,
   0x3000, 0xFEFF].contains c.toNat || (decide (0x2000 ≤ c.toNat) && decide (c.toNat ≤ 0x200A))

/-- The exponent part `e`, `e+`, `e-` followed by digits; `0` when there is no
complete exponent. -/
def scanExponent : List Char → Int
  | c :: rest =>
    if c = 'e' ∨ c = 'E' then
      match rest with
      | '-' :: ds => if (ds.takeWhile isDigit).isEmpty then 0
          else - (digitsValue (ds.takeWhile isDigit) : Int)
      | '+' :: ds => (digitsValue (ds.takeWhile isDigit) : Int)
      | ds => (digitsValue (ds.takeWhile isDigit) : Int)
    else 0
  | [] => 0

/-- The unsigned part of a decimal literal: `Infinity`, or digits with an
optional fraction and exponent, rounded to binary64; `NaN` when no literal
starts the input. -/
def scanUnsigned (neg : Bool) (cs : List Char) : JSNum :=
  if "Infinity".data.isPrefixOf cs then .inf neg
  else
    let intDigits := cs.takeWhile isDigit
    let afterInt := cs.dropWhile isDigit
    let fracDigits := match afterInt with
      | '.' :: rest => rest.takeWhile isDigit
      | _ => []
    let afterFrac := match afterInt with
      | '.' :: rest => rest.dropWhile isDigit
      | other => other
    if intDigits.isEmpty && fracDigits.isEmpty then .nan
    else
      roundDouble ((if neg then -1 else 1) * (digitsValue (intDigits ++ fracDigits) : ℚ)
        * (10 : ℚ) ^ (scanExponent afterFrac - (fracDigits.length : Int)))

/-- The scanner of `parseFloat`: leading white space is skipped and the
longest prefix that is a decimal literal is read. -/
def scanFloat (s : String) : JSNum :=
  match s.data.dropWhile isWhiteSpace with
  | '-' :: rest => scanUnsigned true rest
  | '+' :: rest => scanUnsigned false rest
  | cs => scanUnsigned false cs

/-- Up to `fuel` decimal digits of the fraction `r / d`. -/
def fractionDigits : Nat → Nat → Nat → List Char
  | 0, _, _ => []
  | fuel + 1, r, d =>
    if r = 0 then [] else Char.ofNat (48 + r * 10 / d) :: fractionDigits fuel (r * 10 % d) d

/-- Number printing of the sample host: integers in decimal, other finite
values with up to twenty digits of their decimal fraction; exponent notation
is not produced.  On the integers and the short binary fractions printed
below this is the host's shortest decimal form. -/
def printNumber : JSNum → String
  | .nan => "NaN"
  | .inf false => "Infinity"
  | .inf true => "-Infinity"
  | .fin q =>
    if q.den = 1 then toString q.num
    else
      (if q < 0 then "-" else "") ++ toString (q.num.natAbs / q.den) ++ "."
        ++ String.mk (fractionDigits 20 (q.num.natAbs % q.den) q.den)

/-- The error thrown by `toISOString` on an invalid date. -/
def invalidTime : Fields := newError "Invalid time value"

/-- The number of days of a month of the proleptic Gregorian calendar. -/
def daysInMonth (year month : Nat) : Nat :=
  if month = 2 then
    (if year % 4 = 0 ∧ (year % 100 ≠ 0 ∨ year % 400 = 0) then 29 else 28)
  else if month = 4 ∨ month = 6 ∨ month = 9 ∨ month = 11 then 30
  else 31

/-- Date conversion of the sample host: it accepts the date-only strings
`YYYY-MM-DD` that name a calendar day, giving midnight UTC, and reports every
other argument as an invalid date. -/
def sampleToISOString : JSVal → Except Fields String
  | .str s =>
    match s.data with
    | [y1, y2, y3, y4, '-', m1, m2, '-', d1, d2] =>
      if [y1, y2, y3, y4, m1, m2, d1, d2].all isDigit
          && decide (1 ≤ digitsValue [m1, m2]) && decide (digitsValue [m1, m2] ≤ 12)
          && decide (1 ≤ digitsValue [d1, d2])
          && decide (digitsValue [d1, d2]
              ≤ daysInMonth (digitsValue [y1, y2, y3, y4]) (digitsValue [m1, m2]))
      then .ok (s ++ "T00:00:00.000Z") else .error invalidTime
    | _ => .error invalidTime
  | _ => .error invalidTime

/-- The sample host. -/
def sampleHost : Host :=
  { numToString := printNumber
    parseFloatStr := scanFloat
    toISOString := sampleToISOString
    random := fun i => .fin (1 / 2 ^ (i + 1))
    now := fun _ => "2024-03-07T09:30:00.000Z" }

/-! ## Closed inputs and specification predicates -/

/-- A transport that resolves every request with the given body. -/
def replyWith (data : JSVal) : Transport := fun _ => .ok data

/-- A transport that rejects every request with the given error. -/
def failWith (error : Fields) : Transport := fun _ => .error error

/-- The response body `{success: true, totalSales: null, productSales: "not-an-array"}`. -/
def malformedSalesBody : JSVal :=
  .obj [("success", .bool true), ("totalSales", .null), ("productSales", .str "not-an-array")]

/-- The response body `{success: true, message: "ok"}`. -/
def minimalSalesBody : Fields := [("success", .bool true), ("message", .str "ok")]

/-- The details computed by the `catch` block for an error, when the
classification itself does not throw. -/
def detailsOf (h : Host) (error : Fields) : Option Fields :=
  match classify h error with
  | .ok c => some c.errorDetails
  | .error _ => none

/-- The cancellation made by `source.cancel('Request timed out after 10 seconds')`,
as the object that the transport rejects with; `canceledError` tells which of
the two shapes the library gives it.  Before version 1 of axios it is a
`Cancel`, with the message and a true `__CANCEL__`; from version 1 on it is a
`CanceledError`, which has in addition a name, a code and a true
`isAxiosError`. -/
def timeoutCancel (canceledError : Bool) : Fields :=
  if canceledError then
    [("message", .str "Request timed out after 10 seconds"), ("name", .str "CanceledError"),
     ("code", .str "ERR_CANCELED"), ("__CANCEL__", .bool true), ("isAxiosError", .bool true)]
  else
    [("message", .str "Request timed out after 10 seconds"), ("__CANCEL__", .bool true)]

/-- An error that is not a cancellation, has neither response nor request, and
whose message is `Request was cancelled`; `fromTransport` tells whether it is
an axios error. -/
def lookalikeError (fromTransport : Bool) : Fields :=
  if fromTransport then
    [("message", .str "Request was cancelled"), ("isAxiosError", .bool true)]
  else [("message", .str "Request was cancelled")]

/-- A transport error for a 400 response whose body has the object
`{code: 1}` as its `message`. -/
def objectMessageError : Fields :=
  [("message", .str "Request failed with status code 400"), ("isAxiosError", .bool true),
   ("response", .obj [("status", .num (.fin 400)),
      ("data", .obj [("message", .obj [("code", .num (.fin 1))])]), ("headers", .obj [])]),
   ("request", .obj [])]

/-- A transport error for a 400 response whose body has the object
`{toString: 1}` as its `message`. -/
def unprintableMessageError : Fields :=
  [("message", .str "Request failed with status code 400"), ("isAxiosError", .bool true),
   ("response", .obj [("status", .num (.fin 400)),
      ("data", .obj [("message", .obj [("toString", .num (.fin 1))])]), ("headers", .obj [])]),
   ("request", .obj [])]

/-- An error whose response has the object `{toString: 1}` as its `status` and
no body. -/
def unprintableStatusError : Fields :=
  [("message", .str "Request failed"),
   ("response", .obj [("status", .obj [("toString", .num (.fin 1))]), ("data", .null)])]

/-- An error with neither response nor request whose `message` is the object
`{toString: 1}`. -/
def unprintableSetupError : Fields := [("message", .obj [("toString", .num (.fin 1))])]

/-- A cancellation that also carries a response and a request. -/
def cancelWithResponse : Fields :=
  [("message", .str "canceled"), ("__CANCEL__", .bool true),
   ("response", .obj [("status", .num (.fin 500)), ("data", .obj [("message", .str "boom")])]),
   ("request", .obj [])]

/-- A transport error for a 422 response whose body has a `message`. -/
def rejectedOrder : Fields :=
  [("message", .str "Request failed with status code 422"), ("isAxiosError", .bool true),
   ("response", .obj [("status", .num (.fin 422)),
      ("data", .obj [("message", .str "Quantity exceeds stock")]), ("headers", .obj [])]),
   ("request", .obj [])]

/-- A transport error for a 500 response whose body is a plain text. -/
def serverCrash : Fields :=
  [("message", .str "Request failed with status code 500"), ("isAxiosError", .bool true),
   ("response", .obj [("status", .num (.fin 500)), ("data", .str "Internal Server Error"),
      ("headers", .obj [])]),
   ("request", .obj [])]

/-- A transport error for a request that got no response. -/
def networkError : Fields :=
  [("message", .str "Network Error"), ("isAxiosError", .bool true), ("request", .obj [])]

/-- The object literal of a normalized activity, with the property names of
the source. -/
def Activity.toJS (a : Activity) : JSVal :=
  .obj [("_id", a._id), ("date", a.date), ("activityType", a.activityType),
    ("details", a.details), ("amount", .num a.amount), ("status", a.status)]

/-- The normalized shape of one entry, field by field: a truthy server value
is kept; otherwise `_id` is a placeholder `temp-` followed by a number, `date`
is a time of the host's clock, and `activityType`, `details`, `status` are
`Unknown`, `No details available`, `Completed`; `amount` is the number that
`parseFloat` returns for the server's amount, or `0` when that is `NaN`. -/
def NormalizedFrom (h : Host) (activity : JSVal) (a : Activity) : Prop :=
  (if truthy (getProp activity "_id") = true then a._id = getProp activity "_id"
    else ∃ i, a._id = .str ("temp-" ++ h.numToString (h.random i))) ∧
  (if truthy (getProp activity "date") = true then a.date = getProp activity "date"
    else ∃ i, a.date = .str (h.now i)) ∧
  a.activityType = (if truthy (getProp activity "activityType") = true
    then getProp activity "activityType" else .str "Unknown") ∧
  a.details = (if truthy (getProp activity "details") = true
    then getProp activity "details" else .str "No details available") ∧
  (∃ n, parseFloat h (getProp activity "amount") = .ok n ∧
    a.amount = if n = .nan then .fin 0 else n) ∧
  a.status = (if truthy (getProp activity "status") = true
    then getProp activity "status" else .str "Completed")

/-- The number of entries of the response whose `activityType` is exactly the
given category. -/
def rawCount (responseData : JSVal) (category : String) : Nat :=
  ((entriesOf responseData).filter
    (fun a => strictEqStr (optProp a "activityType") category)).length

/-- The response body `[7, {activityType: "Sale", amount: "12.5"}]`. -/
def oneSaleBody : JSVal :=
  .arr [.num (.fin 7), .obj [("activityType", .str "Sale"), ("amount", .str "12.5")]]

/-- The response body `[{_id: 0, date: "", activityType: "Sale", amount: "3"}]`. -/
def falsyIdBody : JSVal :=
  .arr [.obj [("_id", .num (.fin 0)), ("date", .str ""), ("activityType", .str "Sale"),
    ("amount", .str "3")]]

/-- The response body `[{activityType: "Sale", amount: {toString: 1}}]`. -/
def unprintableAmountBody : JSVal :=
  .arr [.obj [("activityType", .str "Sale"), ("amount", .obj [("toString", .num (.fin 1))])]]

/-- The report expected for `oneSaleBody` on the sample host. -/
def oneSaleReport : ActivityReport :=
  { totalActivities := 1
    totalSales := .fin (25 / 2)
    totalDeliveries := 0
    activityDistribution :=
      [{ activityType := "Sale", count := 1 }, { activityType := "Delivery", count := 0 },
       { activityType := "Stock Update", count := 0 }, { activityType := "Payment", count := 0 },
       { activityType := "Return", count := 0 }]
    data :=
      [{ _id := .str "temp-0.5", date := .str "2024-03-07T09:30:00.000Z",
         activityType := .str "Sale", details := .str "No details available",
         amount := .fin (25 / 2), status := .str "Completed" }] }

/-- The normalized activity computed for the entry of `falsyIdBody` on the
sample host. -/
def falsyIdActivity : Activity :=
  { _id := .str "temp-0.5", date := .str "2024-03-07T09:30:00.000Z",
    activityType := .str "Sale", details := .str "No details available",
    amount := .fin 3, status := .str "Completed" }

/-- The response body
`[{activityType: "Sale", amount: "12.5"}, {activityType: "Delivery", amount: "4"}, 7,
{activityType: "Sale", amount: "7.25"}]`. -/
def twoSalesBody : JSVal :=
  .arr [.obj [("activityType", .str "Sale"), ("amount", .str "12.5")],
    .obj [("activityType", .str "Delivery"), ("amount", .str "4")],
    .num (.fin 7),
    .obj [("activityType", .str "Sale"), ("amount", .str "7.25")]]

/-- The sample host's normalized activity for an entry that has only an
`activityType` and an `amount`, at position `i`. -/
def plainActivity (i : Nat) (activityType : String) (amount : JSNum) : Activity :=
  { _id := .str ("temp-" ++ printNumber (.fin (1 / 2 ^ (i + 1))))
    date := .str "2024-03-07T09:30:00.000Z"
    activityType := .str activityType
    details := .str "No details available"
    amount := amount
    status := .str "Completed" }

/-- The report expected for `twoSalesBody` on the sample host. -/
def twoSalesReport : ActivityReport :=
  { totalActivities := 3
    totalSales := .fin (79 / 4)
    totalDeliveries := 1
    activityDistribution :=
      [{ activityType := "Sale", count := 2 }, { activityType := "Delivery", count := 1 },
       { activityType := "Stock Update", count := 0 }, { activityType := "Payment", count := 0 },
       { activityType := "Return", count := 0 }]
    data :=
      [plainActivity 0 "Sale" (.fin (25 / 2)), plainActivity 1 "Delivery" (.fin 4),
       plainActivity 2 "Sale" (.fin (29 / 4))] }

/-- The response body
`[{activityType: "Sale", amount: "0.1"}, {activityType: "Sale", amount: "0.2"}]`. -/
def tenthsBody : JSVal :=
  .arr [.obj [("activityType", .str "Sale"), ("amount", .str "0.1")],
    .obj [("activityType", .str "Sale"), ("amount", .str "0.2")]]

/-- The report expected for `tenthsBody` on the sample host: the total is the
double written `0.30000000000000004`. -/
def tenthsReport : ActivityReport :=
  { totalActivities := 2
    totalSales := scanFloat "0.30000000000000004"
    totalDeliveries := 0
    activityDistribution :=
      [{ activityType := "Sale", count := 2 }, { activityType := "Delivery", count := 0 },
       { activityType := "Stock Update", count := 0 }, { activityType := "Payment", count := 0 },
       { activityType := "Return", count := 0 }]
    data :=
      [plainActivity 0 "Sale" (scanFloat "0.1"), plainActivity 1 "Sale" (scanFloat "0.2")] }

/-- The FilterSet `{product: 0, supplier: "Acme & Co"}`. -/
def zeroProductFilters : FilterSet :=
  [("product", .num (.fin 0)), ("supplier", .str "Acme & Co")]

/-! ## Properties of objects -/

theorem getField_setField_self (fs : Fields) (k : String) (v : JSVal) :
    getField (setField fs k v) k = v := by
  induction fs with
  | nil => simp [setField, getField, List.lookup]
  | cons p rest ih =>
    obtain ⟨k0, v0⟩ := p
    by_cases hk : k0 = k
    · simp [setField, hk, getField, List.lookup]
    · have hne : (k == k0) = false := by simpa using fun hh => hk hh.symm
      simp only [getField] at ih
      simp [setField, hk, getField, List.lookup, hne, ih]

theorem getField_setField_other (fs : Fields) (k k1 : String) (v : JSVal) (hne : k1 ≠ k) :
    getField (setField fs k v) k1 = getField fs k1 := by
  induction fs with
  | nil =>
    have hb : (k1 == k) = false := by simpa using hne
    simp [setField, getField, List.lookup, hb]
  | cons p rest ih =>
    obtain ⟨k0, v0⟩ := p
    simp only [getField] at ih
    by_cases hk : k0 = k
    · subst hk
      have hb : (k1 == k0) = false := by simpa using hne
      simp [setField, getField, List.lookup, hb]
    · by_cases h1 : k1 = k0
      · subst h1
        simp [setField, hk, getField, List.lookup]
      · have hb : (k1 == k0) = false := by simpa using h1
        simp [setField, hk, getField, List.lookup, hb, ih]

theorem keys_setField (fs : Fields) (k k1 : String) (v : JSVal) :
    k1 ∈ (setField fs k v).map Prod.fst ↔ k1 = k ∨ k1 ∈ fs.map Prod.fst := by
  induction fs with
  | nil => simp [setField]
  | cons p rest ih =>
    obtain ⟨k0, v0⟩ := p
    by_cases hk : k0 = k
    · subst hk
      simp [setField]
    · simp only [setField, hk, if_false, List.map_cons, List.mem_cons, ih]
      tauto

/-- Reading a key after a sequence of writes `o[k] = g k`. -/
theorem getField_foldl_setField (g : String → JSVal) (ks : List String) (target : Fields)
    (k : String) :
    getField (ks.foldl (fun acc k0 => setField acc k0 (g k0)) target) k
      = if k ∈ ks then g k else getField target k := by
  induction ks generalizing target with
  | nil => simp
  | cons k0 rest ih =>
    simp only [List.foldl_cons, ih, List.mem_cons]
    by_cases hr : k ∈ rest
    · simp [hr]
    · by_cases h0 : k = k0
      · subst h0
        simp [hr, getField_setField_self]
      · simp [hr, h0, getField_setField_other _ _ _ _ h0]

theorem keys_foldl_setField (g : String → JSVal) (ks : List String) (target : Fields)
    (k : String) :
    k ∈ (ks.foldl (fun acc k0 => setField acc k0 (g k0)) target).map Prod.fst
      ↔ k ∈ ks ∨ k ∈ target.map Prod.fst := by
  induction ks generalizing target with
  | nil => simp
  | cons k0 rest ih =>
    simp only [List.foldl_cons, ih, keys_setField, List.mem_cons]
    tauto

/-- Reading a key of a spread: the source wins on its own keys. -/
theorem getField_spread (target : Fields) (src : JSVal) (k : String) :
    getField (spread target src) k
      = if k ∈ ownKeys src then getProp src k else getField target k := by
  unfold spread
  exact getField_foldl_setField (fun k0 => getProp src k0) (ownKeys src) target k

theorem keys_spread (target : Fields) (src : JSVal) (k : String) :
    k ∈ (spread target src).map Prod.fst ↔ k ∈ ownKeys src ∨ k ∈ target.map Prod.fst := by
  unfold spread
  exact keys_foldl_setField (fun k0 => getProp src k0) (ownKeys src) target k

theorem getField_absent (fs : Fields) (k : String) (hk : k ∉ fs.map Prod.fst) :
    getField fs k = .undefined := by
  induction fs with
  | nil => simp [getField, List.lookup]
  | cons p rest ih =>
    obtain ⟨k0, v0⟩ := p
    simp only [List.map_cons, List.mem_cons, not_or] at hk
    have hb : (k == k0) = false := by simpa using hk.1
    simp only [getField] at ih
    simp [getField, List.lookup, hb, ih hk.2]

/-! ## The sales report -/

/-- The `catch` block applied to an error made by `new Error(msg)` with a
non-empty message rethrows that message. -/
theorem salesReportCatch_newError (h : Host) (msg : String) (hmsg : msg ≠ "") :
    salesReportCatch h (newError msg) = formattedError msg (newError msg) := by
  have h1 : isCancel (newError msg) = false := by
    simp [isCancel, newError, getField, List.lookup, truthy]
  have h2 : getField (newError msg) "response" = .undefined := by
    simp [newError, getField, List.lookup]
  have h3 : getField (newError msg) "request" = .undefined := by
    simp [newError, getField, List.lookup]
  have h4 : getField (newError msg) "message" = .str msg := by
    simp [newError, getField, List.lookup]
  simp [salesReportCatch, classify, h1, h2, h3, h4, truthy, orElse, hmsg, toStringJS]

/-- C1, evaluated on the failing input: for the response body
`{success: true, totalSales: null, productSales: "not-an-array"}` the call
resolves with `productSales` still the string `"not-an-array"` and
`totalSales` still `null`; the defaults computed for the two fields are
overwritten by the spread of the response. -/
theorem getSalesReport_keeps_malformed_fields :
    (getSalesReport sampleHost (replyWith malformedSalesBody)
        (.str "2024-01-01") (.str "2024-01-31")).outcome
      = .ok (.obj [("success", .bool true), ("message", .undefined), ("totalSales", .null),
          ("totalRevenue", .num (.fin 0)), ("productSales", .str "not-an-array"),
          ("dailySales", .arr [])]) := by
  rfl

/-- C2: when both dates are valid and the transport resolves with an object
`r`, the call resolves with an object in which every key of `r` is present
with the value `r` gives it, and in which each of `totalSales`,
`totalRevenue`, `productSales`, `dailySales` that `r` lacks has its default
`0`, `0`, `[]`, `[]`. -/
theorem getSalesReport_overlays_response (h : Host) (api : Transport)
    (startDate endDate : JSVal) (s e : String) (r : Fields)
    (hstart : truthy startDate = true) (hend : truthy endDate = true)
    (hs : h.toISOString startDate = .ok s) (he : h.toISOString endDate = .ok e)
    (hapi : api (salesRequest (beforeT s) (beforeT e)) = .ok (.obj r)) :
    ∃ result : Fields,
      getSalesReport h api startDate endDate
        = ⟨.ok (.obj result), [salesRequest (beforeT s) (beforeT e)]⟩ ∧
      (∀ k ∈ r.map Prod.fst, k ∈ result.map Prod.fst ∧ getField result k = getField r k) ∧
      (∀ k ∈ ["totalSales", "totalRevenue"], k ∉ r.map Prod.fst →
        getField result k = .num (.fin 0)) ∧
      (∀ k ∈ ["productSales", "dailySales"], k ∉ r.map Prod.fst →
        getField result k = .arr []) := by
  have htry : salesReportTry h api startDate endDate
      = ⟨.ok (salesResult (.obj r)), [salesRequest (beforeT s) (beforeT e)]⟩ := by
    have hobj : truthy (.obj r) = true := rfl
    simp [salesReportTry, hstart, hend, formatDate, hs, he, hapi, hobj]
  have hrun : getSalesReport h api startDate endDate
      = ⟨.ok (salesResult (.obj r)), [salesRequest (beforeT s) (beforeT e)]⟩ := by
    simp only [getSalesReport, htry]
  rw [hrun]
  unfold salesResult
  refine ⟨_, rfl, ?_, ?_, ?_⟩
  · intro k hk
    constructor
    · rw [keys_spread]
      exact Or.inl hk
    · rw [getField_spread]
      simp [ownKeys, hk, getProp]
  · intro k hk habs
    rw [getField_spread]
    have hu : getField r k = .undefined := getField_absent r k habs
    simp only [List.mem_cons, List.mem_singleton, List.not_mem_nil, or_false] at hk
    rcases hk with rfl | rfl <;>
      · simp only [ownKeys, habs, if_false, getProp, hu]
        simp [getField, List.lookup, orElse, truthy]
  · intro k hk habs
    rw [getField_spread]
    have hu : getField r k = .undefined := getField_absent r k habs
    simp only [List.mem_cons, List.mem_singleton, List.not_mem_nil, or_false] at hk
    rcases hk with rfl | rfl <;>
      · simp only [ownKeys, habs, if_false, getProp, hu]
        simp [getField, List.lookup, isArray]

/-- C2 on the response `{success: true, message: "ok"}`: the result has
`success` true, `message` `"ok"`, `totalSales` 0, `totalRevenue` 0 and empty
`productSales` and `dailySales`. -/
theorem getSalesReport_overlays_response_witness :
    ∃ result : Fields,
      getSalesReport sampleHost (replyWith (.obj minimalSalesBody))
          (.str "2024-01-01") (.str "2024-01-31")
        = ⟨.ok (.obj result), [salesRequest "2024-01-01" "2024-01-31"]⟩ ∧
      getField result "success" = .bool true ∧
      getField result "message" = .str "ok" ∧
      getField result "totalSales" = .num (.fin 0) ∧
      getField result "totalRevenue" = .num (.fin 0) ∧
      getField result "productSales" = .arr [] ∧
      getField result "dailySales" = .arr [] := by
  obtain ⟨result, hrun, hkeep, hnum, harr⟩ :=
    getSalesReport_overlays_response sampleHost (replyWith (.obj minimalSalesBody))
      (.str "2024-01-01") (.str "2024-01-31")
      "2024-01-01T00:00:00.000Z" "2024-01-31T00:00:00.000Z" minimalSalesBody
      (by rfl) (by rfl) (by rfl) (by rfl) (by rfl)
  refine ⟨result, hrun, ?_, ?_, ?_, ?_, ?_, ?_⟩
  · exact (hkeep "success" (by simp [minimalSalesBody])).2.trans rfl
  · exact (hkeep "message" (by simp [minimalSalesBody])).2.trans rfl
  · exact hnum "totalSales" (by simp) (by simp [minimalSalesBody])
  · exact hnum "totalRevenue" (by simp) (by simp [minimalSalesBody])
  · exact harr "productSales" (by simp) (by simp [minimalSalesBody])
  · exact harr "dailySales" (by simp) (by simp [minimalSalesBody])

/-- C3: a call with a falsy `startDate` or `endDate` rejects with the message
`Both startDate and endDate are required`, a call with two truthy arguments
one of which does not convert to a date rejects with the message
`Invalid date format. Please use valid date objects`, and in both cases no
request is handed to the transport. -/
theorem getSalesReport_validates_input (h : Host) (api : Transport)
    (startDate endDate : JSVal) :
    ((truthy startDate = false ∨ truthy endDate = false) →
      (getSalesReport h api startDate endDate).calls = [] ∧
      ∃ err, (getSalesReport h api startDate endDate).outcome = .error err ∧
        getField err "message" = .str "Both startDate and endDate are required") ∧
    (truthy startDate = true → truthy endDate = true →
      ((∃ err, h.toISOString startDate = .error err) ∨
        (∃ err, h.toISOString endDate = .error err)) →
      (getSalesReport h api startDate endDate).calls = [] ∧
      ∃ err, (getSalesReport h api startDate endDate).outcome = .error err ∧
        getField err "message"
          = .str "Invalid date format. Please use valid date objects") := by
  constructor
  · intro hmiss
    have htry : salesReportTry h api startDate endDate
        = ⟨.error (newError "Both startDate and endDate are required"), []⟩ := by
      rcases hmiss with hm | hm <;> simp [salesReportTry, hm]
    refine ⟨by simp [getSalesReport, htry],
      salesReportCatch h (newError "Both startDate and endDate are required"), ?_, ?_⟩
    · simp only [getSalesReport, htry]
    · rw [salesReportCatch_newError h _ (by decide)]
      rfl
  · intro hstart hend hbad
    have htry : salesReportTry h api startDate endDate
        = ⟨.error (newError "Invalid date format. Please use valid date objects"), []⟩ := by
      rcases hbad with ⟨err, hb⟩ | ⟨err, hb⟩
      · simp [salesReportTry, hstart, hend, formatDate, hb]
      · cases hs : h.toISOString startDate with
        | error e0 => simp [salesReportTry, hstart, hend, formatDate, hs]
        | ok s0 => simp [salesReportTry, hstart, hend, formatDate, hs, hb]
    refine ⟨by simp [getSalesReport, htry],
      salesReportCatch h (newError "Invalid date format. Please use valid date objects"),
      ?_, ?_⟩
    · simp only [getSalesReport, htry]
    · rw [salesReportCatch_newError h _ (by decide)]
      rfl

/-- C3 on closed inputs: a missing `endDate`, and an `endDate` that is not a
date. -/
theorem getSalesReport_validates_input_witness :
    ((getSalesReport sampleHost (replyWith (.obj minimalSalesBody))
          (.str "2024-01-01") .undefined).calls = [] ∧
      ∃ err, (getSalesReport sampleHost (replyWith (.obj minimalSalesBody))
          (.str "2024-01-01") .undefined).outcome = .error err ∧
        getField err "message" = .str "Both startDate and endDate are required") ∧
    ((getSalesReport sampleHost (replyWith (.obj minimalSalesBody))
          (.str "2024-01-01") (.str "not a date")).calls = [] ∧
      ∃ err, (getSalesReport sampleHost (replyWith (.obj minimalSalesBody))
          (.str "2024-01-01") (.str "not a date")).outcome = .error err ∧
        getField err "message"
          = .str "Invalid date format. Please use valid date objects") :=
  ⟨(getSalesReport_validates_input sampleHost (replyWith (.obj minimalSalesBody))
      (.str "2024-01-01") .undefined).1 (Or.inr rfl),
   (getSalesReport_validates_input sampleHost (replyWith (.obj minimalSalesBody))
      (.str "2024-01-01") (.str "not a date")).2 rfl rfl (Or.inr ⟨invalidTime, rfl⟩)⟩

/-- Every error thrown inside the `try` block, by the code or by the
transport, goes through the `catch` block. -/
theorem getSalesReport_rethrows (h : Host) (api : Transport) (startDate endDate : JSVal)
    (error : Fields) (herr : (salesReportTry h api startDate endDate).outcome = .error error) :
    (getSalesReport h api startDate endDate).outcome = .error (salesReportCatch h error) := by
  simp only [getSalesReport, herr]

theorem printNumber_500 : printNumber (.fin 500) = "500" := by decide!

/-- C4, refuted on closed errors.  For a response whose `data.message` is the
object `{code: 1}` the message of the rethrown error is the string
`[object Object]`, not the server's message; and for a response whose
`data.message` is the object `{toString: 1}` the `catch` block throws the bare
`TypeError` of the failed string conversion, which has neither the server's
message nor the properties of the rethrown error. -/
theorem salesReportCatch_converts_message :
    optProp (getProp (getField objectMessageError "response") "data") "message"
      = .obj [("code", .num (.fin 1))] ∧
    getField (salesReportCatch sampleHost objectMessageError) "message"
      = .str "[object Object]" ∧
    optProp (getProp (getField unprintableMessageError "response") "data") "message"
      = .obj [("toString", .num (.fin 1))] ∧
    salesReportCatch sampleHost unprintableMessageError
      = [("message", .str "Cannot convert object to primitive value")] := by
  refine ⟨by rfl, by rfl, by rfl, by rfl⟩

/-- C4 as amended: the message of the error rethrown by the `catch` block, by
priority.  A cancellation gives `Request was cancelled` whatever else the
error carries; otherwise an error with a response gives the string form of
`response.data.message` when that is truthy and else
`Server responded with status` followed by the string form of the status;
otherwise an error with a request gives `No response received from server`;
otherwise the string form of the error's own message when that is truthy and
else `Error setting up request`.  A string is its own string form.  When the
string conversion of the chosen message, or of the status, throws, the error
of the conversion is what the `catch` block throws. -/
theorem salesReportCatch_message_priority (h : Host) (error : Fields) :
    (isCancel error = true →
      getField (salesReportCatch h error) "message" = .str "Request was cancelled") ∧
    (isCancel error = false → truthy (getField error "response") = true →
      truthy (optProp (getProp (getField error "response") "data") "message") = true →
      (∀ s, toStringJS h.numToString
          (optProp (getProp (getField error "response") "data") "message") = .ok s →
        getField (salesReportCatch h error) "message" = .str s) ∧
      (∀ e, toStringJS h.numToString
          (optProp (getProp (getField error "response") "data") "message") = .error e →
        salesReportCatch h error = e)) ∧
    (isCancel error = false → truthy (getField error "response") = true →
      truthy (optProp (getProp (getField error "response") "data") "message") = false →
      (∀ s, toStringJS h.numToString (getProp (getField error "response") "status") = .ok s →
        getField (salesReportCatch h error) "message"
          = .str ("Server responded with status " ++ s)) ∧
      (∀ e, toStringJS h.numToString (getProp (getField error "response") "status")
          = .error e →
        salesReportCatch h error = e)) ∧
    (isCancel error = false → truthy (getField error "response") = false →
      truthy (getField error "request") = true →
      getField (salesReportCatch h error) "message"
        = .str "No response received from server") ∧
    (isCancel error = false → truthy (getField error "response") = false →
      truthy (getField error "request") = false →
      truthy (getField error "message") = true →
      (∀ s, toStringJS h.numToString (getField error "message") = .ok s →
        getField (salesReportCatch h error) "message" = .str s) ∧
      (∀ e, toStringJS h.numToString (getField error "message") = .error e →
        salesReportCatch h error = e)) ∧
    (isCancel error = false → truthy (getField error "response") = false →
      truthy (getField error "request") = false →
      truthy (getField error "message") = false →
      getField (salesReportCatch h error) "message" = .str "Error setting up request") := by
  refine ⟨?_, ?_, ?_, ?_, ?_, ?_⟩
  · intro hc
    simp only [salesReportCatch, classify, hc, if_true, toStringJS]
    simp [formattedError, getField, List.lookup]
  · intro hc hr hm
    constructor
    · intro s hs
      simp only [salesReportCatch, classify, hc, hr, hm, if_true, if_false,
        Bool.false_eq_true, hs]
      simp [formattedError, getField, List.lookup]
    · intro e he
      simp only [salesReportCatch, classify, hc, hr, hm, if_true, if_false,
        Bool.false_eq_true, he]
  · intro hc hr hm
    constructor
    · intro s hs
      simp only [salesReportCatch, classify, hc, hr, hm, if_true, if_false,
        Bool.false_eq_true, hs, toStringJS]
      simp [formattedError, getField, List.lookup]
    · intro e he
      simp only [salesReportCatch, classify, hc, hr, hm, if_true, if_false,
        Bool.false_eq_true, he]
  · intro hc hr hq
    simp only [salesReportCatch, classify, hc, hr, hq, if_true, if_false, Bool.false_eq_true,
      toStringJS]
    simp [formattedError, getField, List.lookup]
  · intro hc hr hq hm
    constructor
    · intro s hs
      simp only [salesReportCatch, classify, hc, hr, hq, orElse, hm, if_true, if_false,
        Bool.false_eq_true, hs]
      simp [formattedError, getField, List.lookup]
    · intro e he
      simp only [salesReportCatch, classify, hc, hr, hq, orElse, hm, if_true, if_false,
        Bool.false_eq_true, he]
  · intro hc hr hq hm
    simp only [salesReportCatch, classify, hc, hr, hq, orElse, hm, if_true, if_false,
      Bool.false_eq_true, toStringJS]
    simp [formattedError, getField, List.lookup]

/-- C4 as amended, on closed errors: one for each case of the priority order
and one for each string conversion that throws. -/
theorem salesReportCatch_message_priority_witness :
    getField (salesReportCatch sampleHost cancelWithResponse) "message"
      = .str "Request was cancelled" ∧
    getField (salesReportCatch sampleHost rejectedOrder) "message"
      = .str "Quantity exceeds stock" ∧
    getField (salesReportCatch sampleHost serverCrash) "message"
      = .str ("Server responded with status " ++ "500") ∧
    getField (salesReportCatch sampleHost networkError) "message"
      = .str "No response received from server" ∧
    getField (salesReportCatch sampleHost (newError "Empty response from server")) "message"
      = .str "Empty response from server" ∧
    getField (salesReportCatch sampleHost [("message", .str "")]) "message"
      = .str "Error setting up request" ∧
    salesReportCatch sampleHost unprintableMessageError = cannotConvert ∧
    salesReportCatch sampleHost unprintableStatusError = cannotConvert ∧
    salesReportCatch sampleHost unprintableSetupError = cannotConvert :=
  ⟨(salesReportCatch_message_priority sampleHost cancelWithResponse).1 (by rfl),
   ((salesReportCatch_message_priority sampleHost rejectedOrder).2.1
      (by rfl) (by rfl) (by rfl)).1 "Quantity exceeds stock" (by rfl),
   ((salesReportCatch_message_priority sampleHost serverCrash).2.2.1
      (by rfl) (by rfl) (by rfl)).1 "500" (congrArg Except.ok printNumber_500),
   (salesReportCatch_message_priority sampleHost networkError).2.2.2.1 (by rfl) (by rfl)
      (by rfl),
   ((salesReportCatch_message_priority sampleHost
      (newError "Empty response from server")).2.2.2.2.1 (by rfl) (by rfl) (by rfl)
      (by rfl)).1 "Empty response from server" (by rfl),
   (salesReportCatch_message_priority sampleHost [("message", .str "")]).2.2.2.2.2
      (by rfl) (by rfl) (by rfl) (by rfl),
   ((salesReportCatch_message_priority sampleHost unprintableMessageError).2.1
      (by rfl) (by rfl) (by rfl)).2 cannotConvert (by rfl),
   ((salesReportCatch_message_priority sampleHost unprintableStatusError).2.2.1
      (by rfl) (by rfl) (by rfl)).2 cannotConvert (by rfl),
   ((salesReportCatch_message_priority sampleHost unprintableSetupError).2.2.2.2.1
      (by rfl) (by rfl) (by rfl) (by rfl)).2 cannotConvert (by rfl)⟩

/-- C5, refuted on closed errors.  For the timer's cancellation, in either
shape the library gives it, the details computed are `{reason: 'cancelled'}`
while the rethrown error has the four properties `message`, `isAxiosError`,
`response`, `request` and no `reason`; and an error that is not a
cancellation but has the message `Request was cancelled` is rethrown as the
very same object, although its details are different. -/
theorem salesReportCatch_drops_details :
    (salesReportCatch sampleHost (timeoutCancel false)
      = [("message", .str "Request was cancelled"), ("isAxiosError", .bool false),
         ("response", .undefined), ("request", .undefined)] ∧
     salesReportCatch sampleHost (timeoutCancel true)
      = [("message", .str "Request was cancelled"), ("isAxiosError", .bool true),
         ("response", .undefined), ("request", .undefined)]) ∧
    (detailsOf sampleHost (timeoutCancel false) = some [("reason", .str "cancelled")] ∧
     detailsOf sampleHost (timeoutCancel true) = some [("reason", .str "cancelled")]) ∧
    (getField (salesReportCatch sampleHost (timeoutCancel false)) "reason" = .undefined ∧
     getField (salesReportCatch sampleHost (timeoutCancel true)) "reason" = .undefined) ∧
    (salesReportCatch sampleHost (lookalikeError false)
        = salesReportCatch sampleHost (timeoutCancel false) ∧
     salesReportCatch sampleHost (lookalikeError true)
        = salesReportCatch sampleHost (timeoutCancel true)) ∧
    (detailsOf sampleHost (lookalikeError false)
        ≠ detailsOf sampleHost (timeoutCancel false) ∧
     detailsOf sampleHost (lookalikeError true)
        ≠ detailsOf sampleHost (timeoutCancel true)) := by
  have h1 : ∀ b, detailsOf sampleHost (lookalikeError b)
      = some [("message", .str "Request was cancelled")] := by
    intro b
    cases b <;> rfl
  have h2 : ∀ b, detailsOf sampleHost (timeoutCancel b) = some [("reason", .str "cancelled")] := by
    intro b
    cases b <;> rfl
  refine ⟨⟨by rfl, by rfl⟩, ⟨h2 false, h2 true⟩, ⟨by rfl, by rfl⟩, ⟨by rfl, by rfl⟩, ?_, ?_⟩
  · rw [h1, h2]
    simp
  · rw [h1, h2]
    simp

/-- C5 as amended: when the chosen message converts to the string `msg`, the
rethrown error has exactly the properties `message` (that string),
`isAxiosError` (whether the caught error came from the transport), `response`
and `request` (those of the caught error).  The details are not a property of
it.  For a cancellation they are `{reason: 'cancelled'}` and the message is
`Request was cancelled`; for an error with a response they are the status,
body and headers readable through the rethrown `response`; for an error with
only a request they are the rethrown `request`; for any other error they are
the error's own message, which is the rethrown message when it is
truthy, taken in its string form, while a falsy one is replaced by
`Error setting up request`.  The details cannot always be told from the
rethrown error: a cancellation and an error that is not one can be rethrown
as the same object. -/
theorem salesReportCatch_shape (h : Host) (error : Fields) (c : Classification)
    (msg : String) (hc : classify h error = .ok c)
    (hm : toStringJS h.numToString c.errorMessage = .ok msg) :
    salesReportCatch h error
      = [("message", .str msg), ("isAxiosError", .bool (isAxiosError error)),
         ("response", getField error "response"), ("request", getField error "request")] ∧
    (isCancel error = true →
      c.errorDetails = [("reason", .str "cancelled")] ∧ msg = "Request was cancelled") ∧
    (isCancel error = false → truthy (getField error "response") = true →
      c.errorDetails
        = [("status", getProp (getField (salesReportCatch h error) "response") "status"),
           ("data",
              orElse (getProp (getField (salesReportCatch h error) "response") "data")
                (.obj [])),
           ("headers",
              getProp (getField (salesReportCatch h error) "response") "headers")]) ∧
    (isCancel error = false → truthy (getField error "response") = false →
      truthy (getField error "request") = true →
      c.errorDetails = [("request", getField (salesReportCatch h error) "request")]) ∧
    (isCancel error = false → truthy (getField error "response") = false →
      truthy (getField error "request") = false →
      c.errorDetails = [("message", getField error "message")] ∧
      (truthy (getField error "message") = true →
        toStringJS h.numToString (getField error "message") = .ok msg) ∧
      (∀ s, getField error "message" = .str s → s ≠ "" →
        c.errorDetails = [("message", getField (salesReportCatch h error) "message")]) ∧
      (truthy (getField error "message") = false → msg = "Error setting up request")) ∧
    (∃ e1 e2 : Fields, isCancel e1 = true ∧ isCancel e2 = false ∧
      salesReportCatch h e1 = salesReportCatch h e2 ∧ detailsOf h e1 ≠ detailsOf h e2) := by
  have hshape : salesReportCatch h error = formattedError msg error := by
    simp [salesReportCatch, hc, hm]
  have hmsg : getField (formattedError msg error) "message" = .str msg := by
    simp [formattedError, getField, List.lookup]
  have hresp : getField (formattedError msg error) "response" = getField error "response" := by
    simp [formattedError, getField, List.lookup]
  have hreq : getField (formattedError msg error) "request" = getField error "request" := by
    simp [formattedError, getField, List.lookup]
  refine ⟨by rw [hshape]; rfl, ?_, ?_, ?_, ?_, ?_⟩
  · intro hcan
    simp only [classify, hcan, if_true] at hc
    cases hc
    refine ⟨rfl, ?_⟩
    simp only [toStringJS] at hm
    cases hm
    rfl
  · intro hcan hr
    rw [hshape, hresp]
    simp only [classify, hcan, hr] at hc
    by_cases hmsg : truthy (optProp (getProp (getField error "response") "data") "message")
        = true
    · simp only [hmsg, if_true] at hc
      cases hc
      rfl
    · simp only [hmsg] at hc
      cases hst : toStringJS h.numToString (getProp (getField error "response") "status") with
      | error e0 => simp [hst] at hc
      | ok s0 =>
        simp only [hst] at hc
        cases hc
        rfl
  · intro hcan hr hq
    rw [hshape, hreq]
    simp only [classify, hcan, hr, hq] at hc
    cases hc
    rfl
  · intro hcan hr hq
    simp only [classify, hcan, hr, hq, if_false, Bool.false_eq_true] at hc
    cases hc
    refine ⟨rfl, ?_, ?_, ?_⟩
    · intro ht
      simpa [orElse, ht] using hm
    · intro s hs hne
      have ht : truthy (getField error "message") = true := by
        rw [hs]
        simpa [truthy] using hne
      have hm2 : toStringJS h.numToString (getField error "message") = .ok msg := by
        simpa [orElse, ht] using hm
      rw [hs] at hm2
      simp only [toStringJS] at hm2
      cases hm2
      rw [hshape, hmsg, hs]
    · intro hf
      have hm2 : toStringJS h.numToString (.str "Error setting up request") = .ok msg := by
        simpa [orElse, hf] using hm
      simp only [toStringJS] at hm2
      cases hm2
      rfl
  · refine ⟨timeoutCancel false, lookalikeError false, by rfl, by rfl, by rfl, ?_⟩
    have h1 : detailsOf h (timeoutCancel false) = some [("reason", .str "cancelled")] := by rfl
    have h2 : detailsOf h (lookalikeError false)
        = some [("message", .str "Request was cancelled")] := by rfl
    rw [h1, h2]
    simp

/-- C5 as amended, on closed errors: the 422 error, whose rethrown error
carries the server's message and the caught error's response and request; the
timer's cancellation; and an error of the `try` block, whose message is the
rethrown message. -/
theorem salesReportCatch_shape_witness :
    salesReportCatch sampleHost rejectedOrder
      = [("message", .str "Quantity exceeds stock"),
         ("isAxiosError", .bool (isAxiosError rejectedOrder)),
         ("response", getField rejectedOrder "response"),
         ("request", getField rejectedOrder "request")] ∧
    detailsOf sampleHost rejectedOrder
      = some [("status", getProp (getField (salesReportCatch sampleHost rejectedOrder)
                "response") "status"),
           ("data", orElse (getProp (getField (salesReportCatch sampleHost rejectedOrder)
                "response") "data") (.obj [])),
           ("headers", getProp (getField (salesReportCatch sampleHost rejectedOrder)
                "response") "headers")] ∧
    detailsOf sampleHost (timeoutCancel true) = some [("reason", .str "cancelled")] ∧
    detailsOf sampleHost (newError "Empty response from server")
      = some [("message", getField (salesReportCatch sampleHost
          (newError "Empty response from server")) "message")] := by
  have hserver := salesReportCatch_shape sampleHost rejectedOrder
    ⟨.str "Quantity exceeds stock",
      [("status", .num (.fin 422)), ("data", .obj [("message", .str "Quantity exceeds stock")]),
       ("headers", .obj [])]⟩
    "Quantity exceeds stock" (by rfl) (by rfl)
  have hcancel := salesReportCatch_shape sampleHost (timeoutCancel true)
    ⟨.str "Request was cancelled", [("reason", .str "cancelled")]⟩
    "Request was cancelled" (by rfl) (by rfl)
  have hsetup := salesReportCatch_shape sampleHost (newError "Empty response from server")
    ⟨.str "Empty response from server", [("message", .str "Empty response from server")]⟩
    "Empty response from server" (by rfl) (by rfl)
  refine ⟨hserver.1, ?_, ?_, ?_⟩
  · exact congrArg some (hserver.2.2.1 (by rfl) (by rfl))
  · exact congrArg some (hcancel.2.1 (by rfl)).1
  · exact congrArg some
      ((hsetup.2.2.2.2.1 (by rfl) (by rfl) (by rfl)).2.2.1 "Empty response from server"
        (by rfl) (by decide))

/-! ## The activity report -/

theorem JSNum.truthy_or_zero (n : JSNum) :
    (if n.truthy then n else JSNum.fin 0) = if n = .nan then .fin 0 else n := by
  cases n with
  | nan => simp [JSNum.truthy]
  | inf b => simp [JSNum.truthy]
  | fin q =>
    by_cases hq : q = 0
    · simp [JSNum.truthy, hq]
    · simp [JSNum.truthy, hq]

/-- The `map` callback produces the normalized shape. -/
theorem normalizeActivity_normalized (h : Host) (i : Nat) (activity : JSVal) (a : Activity)
    (ha : normalizeActivity h i activity = .ok a) : NormalizedFrom h activity a := by
  unfold normalizeActivity at ha
  cases hp : parseFloat h (getProp activity "amount") with
  | error e0 => simp [hp] at ha
  | ok n =>
    simp only [hp] at ha
    cases ha
    refine ⟨?_, ?_, rfl, rfl, ⟨n, hp, JSNum.truthy_or_zero n⟩, rfl⟩
    · by_cases ht : truthy (getProp activity "_id") = true
      · simp [orElse, ht]
      · simp only [orElse, ht, if_false]
        exact ⟨i, rfl⟩
    · by_cases ht : truthy (getProp activity "date") = true
      · simp [orElse, ht]
      · simp only [orElse, ht, if_false]
        exact ⟨i, rfl⟩

/-- The `map` keeps the order and normalizes every entry. -/
theorem normalizeFrom_normalized (h : Host) (entries : List JSVal) :
    ∀ (i : Nat) (data : List Activity), normalizeFrom h i entries = .ok data →
      List.Forall₂ (NormalizedFrom h) entries data := by
  induction entries with
  | nil =>
    intro i data hd
    simp only [normalizeFrom] at hd
    cases hd
    exact List.Forall₂.nil
  | cons activity rest ih =>
    intro i data hd
    simp only [normalizeFrom] at hd
    cases ha : normalizeActivity h i activity with
    | error e0 => simp [ha] at hd
    | ok a =>
      cases hr : normalizeFrom h (i + 1) rest with
      | error e0 => simp [ha, hr] at hd
      | ok others =>
        simp only [ha, hr] at hd
        cases hd
        exact List.Forall₂.cons (normalizeActivity_normalized h i activity a ha)
          (ih (i + 1) others hr)

/-- The `map` completes when the amount of every entry converts to a string. -/
theorem normalizeFrom_total (h : Host) (entries : List JSVal)
    (hconv : ∀ a ∈ entries, ∃ s, toStringJS h.numToString (getProp a "amount") = .ok s) :
    ∀ i : Nat, ∃ data, normalizeFrom h i entries = .ok data := by
  induction entries with
  | nil => exact fun i => ⟨[], rfl⟩
  | cons activity rest ih =>
    intro i
    obtain ⟨s, hs⟩ := hconv activity (List.mem_cons_self _ _)
    obtain ⟨others, ho⟩ := ih (fun a ha => hconv a (List.mem_cons_of_mem _ ha)) (i + 1)
    simp [normalizeFrom, normalizeActivity, parseFloat, hs, ho]

/-- The `try` block completes when the amount of every object-shaped entry
converts to a string. -/
theorem activityReportTry_total (h : Host) (responseData : JSVal)
    (hconv : ∀ a ∈ entriesOf responseData, isObjectShaped a = true →
      ∃ s, toStringJS h.numToString (getProp a "amount") = .ok s) :
    ∃ data, normalizeFrom h 0 ((entriesOf responseData).filter isObjectShaped) = .ok data := by
  apply normalizeFrom_total
  intro a ha
  rw [List.mem_filter] at ha
  exact hconv a ha.1 ha.2

/-- The `map` throws when the amount of some entry does not convert to a
string. -/
theorem normalizeFrom_throws (h : Host) (entries : List JSVal)
    (hbad : ∃ a ∈ entries, ∃ e, toStringJS h.numToString (getProp a "amount") = .error e) :
    ∀ i : Nat, ∃ e, normalizeFrom h i entries = .error e := by
  induction entries with
  | nil =>
    obtain ⟨a, ha, _⟩ := hbad
    cases ha
  | cons activity rest ih =>
    intro i
    obtain ⟨a, ha, e, he⟩ := hbad
    cases hn : normalizeActivity h i activity with
    | error e0 => exact ⟨e0, by simp [normalizeFrom, hn]⟩
    | ok x =>
      rcases List.mem_cons.mp ha with rfl | hrest
      · simp [normalizeActivity, parseFloat, he] at hn
      · obtain ⟨e1, h1⟩ := ih ⟨a, hrest, e, he⟩ (i + 1)
        exact ⟨e1, by simp [normalizeFrom, hn, h1]⟩

theorem optProp_eq_getProp (v : JSVal) (k : String) : optProp v k = getProp v k := by
  cases v <;> rfl

/-- A property of a string is `undefined`, its length, or a one-character
string. -/
theorem getProp_str_cases (s k : String) :
    getProp (.str s) k = .undefined ∨ (∃ n, getProp (.str s) k = .num n)
      ∨ ∃ c, getProp (.str s) k = .str (String.singleton c) := by
  unfold getProp
  by_cases hk : k = "length"
  · exact Or.inr (Or.inl ⟨.fin s.data.length, by simp [hk]⟩)
  · simp only [hk, if_false]
    cases hi : indexOfKey s.data.length k with
    | none => exact Or.inl rfl
    | some i =>
      dsimp only
      cases hc : s.data[i]? with
      | none => exact Or.inl rfl
      | some c => exact Or.inr (Or.inr ⟨c, rfl⟩)

theorem singleton_ne_category (c : Char) (t : String) (ht : t ∈ activityTypes) :
    (String.singleton c == t) = false := by
  have hlen : (String.singleton c).length = 1 := rfl
  have hne : String.singleton c ≠ t := by
    intro heq
    rw [heq] at hlen
    simp only [activityTypes, List.mem_cons, List.mem_singleton, List.not_mem_nil,
      or_false] at ht
    rcases ht with rfl | rfl | rfl | rfl | rfl <;> simp [String.length] at hlen
  simpa using hne

/-- Only object-shaped entries can have one of the five categories as their
`activityType`. -/
theorem isObjectShaped_of_category (a : JSVal) (t : String) (ht : t ∈ activityTypes)
    (hm : strictEqStr (optProp a "activityType") t = true) : isObjectShaped a = true := by
  rw [optProp_eq_getProp] at hm
  cases a with
  | undefined => simp [getProp, strictEqStr] at hm
  | null => simp [getProp, strictEqStr] at hm
  | bool b => simp [getProp, strictEqStr] at hm
  | num n => simp [getProp, strictEqStr] at hm
  | str s =>
    rcases getProp_str_cases s "activityType" with hu | ⟨n, hn⟩ | ⟨c, hc⟩
    · simp [hu, strictEqStr] at hm
    · simp [hn, strictEqStr] at hm
    · rw [hc] at hm
      simp only [strictEqStr] at hm
      rw [singleton_ne_category c t ht] at hm
      exact absurd hm (by simp)
  | arr xs => rfl
  | obj fs => rfl

/-- A normalized entry has one of the five categories exactly when the raw
entry has it. -/
theorem category_of_normalized (h : Host) (activity : JSVal) (a : Activity) (t : String)
    (ht : t ∈ activityTypes) (hn : NormalizedFrom h activity a) :
    strictEqStr (optProp activity "activityType") t = strictEqStr a.activityType t := by
  rw [optProp_eq_getProp, hn.2.2.1]
  by_cases htr : truthy (getProp activity "activityType") = true
  · simp [htr]
  · simp only [htr, if_false, Bool.false_eq_true]
    have hunknown : strictEqStr (.str "Unknown") t = false := by
      simp only [activityTypes, List.mem_cons, List.mem_singleton, List.not_mem_nil,
        or_false] at ht
      rcases ht with rfl | rfl | rfl | rfl | rfl <;> decide
    rw [hunknown]
    cases hg : getProp activity "activityType" with
    | str s =>
      rw [hg] at htr
      have hs : s = "" := by simpa [truthy] using htr
      subst hs
      simp only [activityTypes, List.mem_cons, List.mem_singleton, List.not_mem_nil,
        or_false] at ht
      rcases ht with rfl | rfl | rfl | rfl | rfl <;> decide
    | undefined => rfl
    | null => rfl
    | bool b => rfl
    | num n => rfl
    | arr xs => rfl
    | obj fs => rfl

theorem filter_length_of_forall₂ {α β : Type} (R : α → β → Prop) (p : α → Bool) (q : β → Bool)
    (hpq : ∀ a b, R a b → p a = q b) (l : List α) (m : List β) (hlm : List.Forall₂ R l m) :
    (l.filter p).length = (m.filter q).length := by
  induction hlm with
  | nil => rfl
  | cons hab _ ih =>
    simp only [List.filter_cons, hpq _ _ hab]
    split <;> simp [ih]

theorem filter_objectShaped_category (l : List JSVal) (t : String) (ht : t ∈ activityTypes) :
    ((l.filter isObjectShaped).filter (fun a => strictEqStr (optProp a "activityType") t))
      = l.filter (fun a => strictEqStr (optProp a "activityType") t) := by
  rw [List.filter_filter]
  apply List.filter_congr
  intro a _
  cases hm : strictEqStr (optProp a "activityType") t with
  | false => simp
  | true => simp [isObjectShaped_of_category a t ht hm]

/-- The counts over the raw entries are the counts over the normalized ones. -/
theorem rawCount_eq_normalized (h : Host) (responseData : JSVal) (data : List Activity)
    (hd : normalizeFrom h 0 ((entriesOf responseData).filter isObjectShaped) = .ok data)
    (t : String) (ht : t ∈ activityTypes) :
    rawCount responseData t = (data.filter (fun a => strictEqStr a.activityType t)).length := by
  unfold rawCount
  rw [← filter_objectShaped_category _ t ht]
  exact filter_length_of_forall₂ (NormalizedFrom h) _ _
    (fun a b hab => category_of_normalized h a b t ht hab) _ _
    (normalizeFrom_normalized h _ 0 data hd)

/-- A value is strictly equal to at most one of the five categories. -/
theorem category_indicator_le_one (v : JSVal) :
    (if strictEqStr v "Sale" then 1 else 0) + (if strictEqStr v "Delivery" then 1 else 0)
      + (if strictEqStr v "Stock Update" then 1 else 0)
      + (if strictEqStr v "Payment" then 1 else 0)
      + (if strictEqStr v "Return" then 1 else 0) ≤ 1 := by
  cases v with
  | str s =>
    simp only [strictEqStr, beq_iff_eq]
    by_cases h1 : s = "Sale"
    · subst h1; decide
    · by_cases h2 : s = "Delivery"
      · subst h2; decide
      · by_cases h3 : s = "Stock Update"
        · subst h3; decide
        · by_cases h4 : s = "Payment"
          · subst h4; decide
          · by_cases h5 : s = "Return"
            · subst h5; decide
            · simp [h1, h2, h3, h4, h5]
  | undefined => simp [strictEqStr]
  | null => simp [strictEqStr]
  | bool b => simp [strictEqStr]
  | num n => simp [strictEqStr]
  | arr xs => simp [strictEqStr]
  | obj fs => simp [strictEqStr]

theorem filter_length_cons {α : Type} (p : α → Bool) (a : α) (l : List α) :
    ((a :: l).filter p).length = (if p a then 1 else 0) + (l.filter p).length := by
  simp only [List.filter_cons]
  split <;> simp [Nat.add_comm]

/-- The five category counts of a list of activities sum to at most its
length. -/
theorem category_counts_le_length (data : List Activity) :
    (activityTypes.map
      (fun t => (data.filter (fun a => strictEqStr a.activityType t)).length)).sum
      ≤ data.length := by
  induction data with
  | nil => simp [activityTypes]
  | cons a rest ih =>
    have hone := category_indicator_le_one a.activityType
    simp only [activityTypes, List.map_cons, List.map_nil, List.sum_cons, List.sum_nil,
      filter_length_cons, List.length_cons] at ih ⊢
    omega

/-- The report built by the `try` block, once the `map` has produced `data`. -/
theorem activityReportTry_ok (h : Host) (responseData : JSVal) (report : ActivityReport)
    (hr : activityReportTry h responseData = .ok report) :
    ∃ data, normalizeFrom h 0 ((entriesOf responseData).filter isObjectShaped) = .ok data ∧
      report =
        { totalActivities := data.length
          totalSales :=
            (data.filter (fun a => strictEqStr a.activityType "Sale")).foldl
              (fun sum a => JSNum.add sum a.amount) (.fin 0)
          totalDeliveries :=
            (data.filter (fun a => strictEqStr a.activityType "Delivery")).length
          activityDistribution :=
            activityTypes.map (fun t => { activityType := t, count := rawCount responseData t })
          data := data } := by
  unfold activityReportTry at hr
  cases hd : normalizeFrom h 0 ((entriesOf responseData).filter isObjectShaped) with
  | error e0 => simp [hd] at hr
  | ok data =>
    simp only [hd] at hr
    cases hr
    exact ⟨data, rfl, rfl⟩

/-- The promise of `getActivityReport` always resolves, with the report of
the `try` block or with the zero-value report. -/
theorem getActivityReport_outcome (h : Host) (api : Transport) (startDate endDate : JSVal) :
    (getActivityReport h api startDate endDate).outcome
      = .ok (match api (activityRequest startDate endDate) with
          | .error _ => emptyActivityReport
          | .ok responseData =>
            match activityReportTry h responseData with
            | .ok report => report
            | .error _ => emptyActivityReport) := by
  unfold getActivityReport
  cases api (activityRequest startDate endDate) with
  | error e0 => rfl
  | ok responseData =>
    dsimp only
    cases activityReportTry h responseData with
    | error e0 => rfl
    | ok report => rfl

/-- On the success path the call resolves with the report of the `try`
block. -/
theorem getActivityReport_success (h : Host) (api : Transport) (startDate endDate : JSVal)
    (responseData : JSVal)
    (hapi : api (activityRequest startDate endDate) = .ok responseData)
    (hconv : ∀ a ∈ entriesOf responseData, isObjectShaped a = true →
      ∃ s, toStringJS h.numToString (getProp a "amount") = .ok s) :
    ∃ data, normalizeFrom h 0 ((entriesOf responseData).filter isObjectShaped) = .ok data ∧
      (getActivityReport h api startDate endDate).outcome = .ok
        { totalActivities := data.length
          totalSales :=
            (data.filter (fun a => strictEqStr a.activityType "Sale")).foldl
              (fun sum a => JSNum.add sum a.amount) (.fin 0)
          totalDeliveries :=
            (data.filter (fun a => strictEqStr a.activityType "Delivery")).length
          activityDistribution :=
            activityTypes.map (fun t => { activityType := t, count := rawCount responseData t })
          data := data } := by
  obtain ⟨data, hd⟩ := activityReportTry_total h responseData hconv
  refine ⟨data, hd, ?_⟩
  rw [getActivityReport_outcome, hapi]
  simp only [activityReportTry, hd]
  rfl

/-- A left-to-right sum whose running totals are doubles is the exact sum. -/
theorem foldl_add_exact (qs : List ℚ) :
    ∀ acc : ℚ, (∀ k, k ≤ qs.length → IsDouble (acc + (qs.take k).sum)) →
      (qs.map JSNum.fin).foldl JSNum.add (.fin acc) = .fin (acc + qs.sum) := by
  induction qs with
  | nil =>
    intro acc _
    simp
  | cons q rest ih =>
    intro acc hexact
    have hfirst : roundDouble (acc + q) = .fin (acc + q) := by
      have h1 := hexact 1 (by simp)
      simpa [IsDouble] using h1
    have hrest : ∀ k, k ≤ rest.length → IsDouble (acc + q + (rest.take k).sum) := by
      intro k hk
      have h1 := hexact (k + 1) (by simpa using hk)
      simpa [add_assoc] using h1
    simp only [List.map_cons, List.foldl_cons, JSNum.add, hfirst]
    rw [ih (acc + q) hrest]
    simp [add_assoc]

/-- C6: on the success path (the transport resolves and the amount of every
object-shaped entry converts to a string) the call resolves with a report in
which `totalActivities` is the number of object-shaped entries of the body,
`totalSales` is the left-to-right sum, from `0`, of the amounts of the
normalized entries whose `activityType` is exactly `Sale`, `totalDeliveries`
is the number of normalized entries whose `activityType` is exactly
`Delivery`, and `activityDistribution` has exactly the five entries `Sale`,
`Delivery`, `Stock Update`, `Payment`, `Return`, in that order, each with the
number of entries of the body of that `activityType`.  The sum is the
floating-point one; when the amounts are finite and every running total is a
double, it is the exact sum of the amounts. -/
theorem getActivityReport_aggregates (h : Host) (api : Transport) (startDate endDate : JSVal)
    (responseData : JSVal)
    (hapi : api (activityRequest startDate endDate) = .ok responseData)
    (hconv : ∀ a ∈ entriesOf responseData, isObjectShaped a = true →
      ∃ s, toStringJS h.numToString (getProp a "amount") = .ok s) :
    ∃ report, (getActivityReport h api startDate endDate).outcome = .ok report ∧
      report.totalActivities = ((entriesOf responseData).filter isObjectShaped).length ∧
      report.totalSales
        = ((report.data.filter (fun a => strictEqStr a.activityType "Sale")).map
            (fun a => a.amount)).foldl JSNum.add (.fin 0) ∧
      report.totalDeliveries
        = (report.data.filter (fun a => strictEqStr a.activityType "Delivery")).length ∧
      report.activityDistribution
        = [{ activityType := "Sale", count := rawCount responseData "Sale" },
           { activityType := "Delivery", count := rawCount responseData "Delivery" },
           { activityType := "Stock Update", count := rawCount responseData "Stock Update" },
           { activityType := "Payment", count := rawCount responseData "Payment" },
           { activityType := "Return", count := rawCount responseData "Return" }] ∧
      (∀ qs : List ℚ,
        (report.data.filter (fun a => strictEqStr a.activityType "Sale")).map
            (fun a => a.amount) = qs.map JSNum.fin →
        (∀ k, k ≤ qs.length → IsDouble ((qs.take k).sum)) →
        report.totalSales = .fin qs.sum) := by
  obtain ⟨data, hd, hrun⟩ :=
    getActivityReport_success h api startDate endDate responseData hapi hconv
  refine ⟨_, hrun, ?_, ?_, rfl, rfl, ?_⟩
  · exact ((normalizeFrom_normalized h _ 0 data hd).length_eq).symm
  · simp only [List.foldl_map]
  · intro qs hqs hexact
    have hsum := foldl_add_exact qs 0 (by simpa using hexact)
    simp only [zero_add] at hsum
    rw [← hsum, ← hqs, List.foldl_map]

/-- C7: the promise of `getActivityReport` resolves for all arguments and all
transport outcomes, and when the transport rejects it resolves with the
zero-value report. -/
theorem getActivityReport_never_rejects (h : Host) (api : Transport)
    (startDate endDate : JSVal) :
    (∃ report, (getActivityReport h api startDate endDate).outcome = .ok report) ∧
    (∀ err, api (activityRequest startDate endDate) = .error err →
      (getActivityReport h api startDate endDate).outcome
        = .ok { totalActivities := 0, totalSales := .fin 0, totalDeliveries := 0,
                activityDistribution := [], data := [] }) := by
  constructor
  · exact ⟨_, getActivityReport_outcome h api startDate endDate⟩
  · intro err herr
    rw [getActivityReport_outcome, herr]
    rfl

/-- C7 on a transport that fails with a network error. -/
theorem getActivityReport_never_rejects_witness :
    (getActivityReport sampleHost (failWith networkError)
        (.str "2024-01-01") (.str "2024-01-31")).outcome
      = .ok { totalActivities := 0, totalSales := .fin 0, totalDeliveries := 0,
              activityDistribution := [], data := [] } :=
  (getActivityReport_never_rejects sampleHost (failWith networkError)
    (.str "2024-01-01") (.str "2024-01-31")).2 networkError rfl

/-- C8 as amended: when the transport resolves and the amount of every
object-shaped entry converts to a string, `data` lists the object-shaped
entries of the body, in their order, each in the normalized shape: `_id`,
`date`, `activityType`, `details`, `status` keep a truthy server value and
otherwise take a placeholder `temp-` followed by a random number, the current
time, `Unknown`, `No details available`, `Completed`; `amount` is the number
parsed from the server's amount, or `0` when the parse gives `NaN`.  When the
amount of some object-shaped entry does not convert to a string, the call
resolves with the zero-value report, whose `data` is empty. -/
theorem getActivityReport_normalizes (h : Host) (api : Transport) (startDate endDate : JSVal)
    (responseData : JSVal)
    (hapi : api (activityRequest startDate endDate) = .ok responseData) :
    ((∀ a ∈ entriesOf responseData, isObjectShaped a = true →
        ∃ s, toStringJS h.numToString (getProp a "amount") = .ok s) →
      ∃ report, (getActivityReport h api startDate endDate).outcome = .ok report ∧
        List.Forall₂ (NormalizedFrom h) ((entriesOf responseData).filter isObjectShaped)
          report.data) ∧
    ((∃ a ∈ entriesOf responseData, isObjectShaped a = true ∧
        ∃ e, toStringJS h.numToString (getProp a "amount") = .error e) →
      (getActivityReport h api startDate endDate).outcome = .ok emptyActivityReport) := by
  constructor
  · intro hconv
    obtain ⟨data, hd, hrun⟩ :=
      getActivityReport_success h api startDate endDate responseData hapi hconv
    exact ⟨_, hrun, normalizeFrom_normalized h _ 0 data hd⟩
  · intro hbad
    obtain ⟨a, ha, hobj, e, he⟩ := hbad
    obtain ⟨e1, h1⟩ := normalizeFrom_throws h ((entriesOf responseData).filter isObjectShaped)
      ⟨a, List.mem_filter.mpr ⟨ha, hobj⟩, e, he⟩ 0
    rw [getActivityReport_outcome, hapi]
    simp only [activityReportTry, h1]

/-- C10: in the report that the call resolves with, every entry of
`activityDistribution` counts the elements of `data` whose `activityType` is
its category, the `Delivery` entry equals `totalDeliveries`, and the counts
sum to at most `totalActivities`; on the success path the entries are those
of the five categories, in order. -/
theorem getActivityReport_distribution_agrees (h : Host) (api : Transport)
    (startDate endDate : JSVal) :
    ∃ report, (getActivityReport h api startDate endDate).outcome = .ok report ∧
      (∀ d ∈ report.activityDistribution,
        d.count
          = (report.data.filter (fun a => strictEqStr a.activityType d.activityType)).length) ∧
      (∀ d ∈ report.activityDistribution, d.activityType = "Delivery" →
        d.count = report.totalDeliveries) ∧
      (report.activityDistribution.map (fun d => d.count)).sum ≤ report.totalActivities ∧
      (∀ responseData, api (activityRequest startDate endDate) = .ok responseData →
        (∀ a ∈ entriesOf responseData, isObjectShaped a = true →
          ∃ s, toStringJS h.numToString (getProp a "amount") = .ok s) →
        report.activityDistribution.map (fun d => d.activityType) = activityTypes) := by
  refine ⟨_, getActivityReport_outcome h api startDate endDate, ?_⟩
  cases hapi : api (activityRequest startDate endDate) with
  | error e0 =>
    dsimp only
    refine ⟨?_, ?_, ?_, ?_⟩
    · intro d hd
      simp [emptyActivityReport] at hd
    · intro d hd
      simp [emptyActivityReport] at hd
    · simp [emptyActivityReport]
    · intro responseData hrd
      cases hrd
  | ok responseData =>
    dsimp only
    cases htry : activityReportTry h responseData with
    | error e0 =>
      dsimp only
      refine ⟨?_, ?_, ?_, ?_⟩
      · intro d hd
        simp [emptyActivityReport] at hd
      · intro d hd
        simp [emptyActivityReport] at hd
      · simp [emptyActivityReport]
      · intro rd hrd hconv
        cases hrd
        obtain ⟨data, hd⟩ := activityReportTry_total h responseData hconv
        simp [activityReportTry, hd] at htry
    | ok report =>
      dsimp only
      obtain ⟨data, hd, hrep⟩ := activityReportTry_ok h responseData report htry
      subst hrep
      have hcount : ∀ t ∈ activityTypes, rawCount responseData t
          = (data.filter (fun a => strictEqStr a.activityType t)).length :=
        fun t ht => rawCount_eq_normalized h responseData data hd t ht
      refine ⟨?_, ?_, ?_, ?_⟩
      · intro d hdm
        simp only [List.mem_map] at hdm
        obtain ⟨t, ht, rfl⟩ := hdm
        exact hcount t ht
      · intro d hdm hdel
        simp only [List.mem_map] at hdm
        obtain ⟨t, ht, rfl⟩ := hdm
        simp only at hdel
        subst hdel
        exact hcount "Delivery" ht
      · have hsum := category_counts_le_length data
        simp only [List.map_map]
        have hmap : (activityTypes.map
            ((fun d : DistributionEntry => d.count) ∘
              fun t => { activityType := t, count := rawCount responseData t }))
            = activityTypes.map
                (fun t => (data.filter (fun a => strictEqStr a.activityType t)).length) := by
          apply List.map_congr_left
          intro t ht
          exact hcount t ht
        rw [hmap]
        exact hsum
      · intro rd hrd hconv
        simp [List.map_map, Function.comp_def]

theorem oneSaleBody_converts :
    ∀ a ∈ entriesOf oneSaleBody, isObjectShaped a = true →
      ∃ s, toStringJS sampleHost.numToString (getProp a "amount") = .ok s := by
  intro a ha _
  simp only [entriesOf, oneSaleBody, List.mem_cons, List.mem_singleton, List.not_mem_nil,
    or_false] at ha
  rcases ha with rfl | rfl
  · exact ⟨"undefined", rfl⟩
  · exact ⟨"12.5", rfl⟩

theorem oneSaleBody_report :
    (getActivityReport sampleHost (replyWith oneSaleBody)
        (.str "2024-01-01") (.str "2024-01-31")).outcome = .ok oneSaleReport := by
  with_unfolding_all rfl

theorem twoSalesBody_converts :
    ∀ a ∈ entriesOf twoSalesBody, isObjectShaped a = true →
      ∃ s, toStringJS sampleHost.numToString (getProp a "amount") = .ok s := by
  intro a ha _
  simp only [entriesOf, twoSalesBody, List.mem_cons, List.mem_singleton, List.not_mem_nil,
    or_false] at ha
  rcases ha with rfl | rfl | rfl | rfl
  · exact ⟨"12.5", rfl⟩
  · exact ⟨"4", rfl⟩
  · exact ⟨"undefined", rfl⟩
  · exact ⟨"7.25", rfl⟩

theorem twoSalesBody_report :
    (getActivityReport sampleHost (replyWith twoSalesBody)
        (.str "2024-01-01") (.str "2024-01-31")).outcome = .ok twoSalesReport := by
  with_unfolding_all rfl

theorem tenthsBody_converts :
    ∀ a ∈ entriesOf tenthsBody, isObjectShaped a = true →
      ∃ s, toStringJS sampleHost.numToString (getProp a "amount") = .ok s := by
  intro a ha _
  simp only [entriesOf, tenthsBody, List.mem_cons, List.mem_singleton, List.not_mem_nil,
    or_false] at ha
  rcases ha with rfl | rfl
  · exact ⟨"0.1", rfl⟩
  · exact ⟨"0.2", rfl⟩

theorem tenthsBody_report :
    (getActivityReport sampleHost (replyWith tenthsBody)
        (.str "2024-01-01") (.str "2024-01-31")).outcome = .ok tenthsReport := by
  with_unfolding_all rfl

/-- Rounding to binary64 on closed inputs: a double is left unchanged, a tie
goes to the even neighbour, the decimal `0.1` rounds to a binary fraction, a
magnitude from `2 ^ 1024` on overflows, and half of the least subnormal rounds
to zero. -/
theorem roundDouble_samples :
    roundDouble (79 / 4) = .fin (79 / 4) ∧
    roundDouble (2 ^ 53 + 1) = .fin (2 ^ 53) ∧
    roundDouble (2 ^ 53 + 3) = .fin (2 ^ 53 + 4) ∧
    roundDouble (1 / 10) = .fin (3602879701896397 / 2 ^ 55) ∧
    roundDouble (2 ^ 1024) = .inf false ∧
    roundDouble (-(2 ^ 1024)) = .inf true ∧
    roundDouble (2 ^ 1024 - 2 ^ 971) = .fin (2 ^ 1024 - 2 ^ 971) ∧
    roundDouble (1 / 2 ^ 1074) = .fin (1 / 2 ^ 1074) ∧
    roundDouble (1 / 2 ^ 1075) = .fin 0 := by
  decide!

/-- The sum of the doubles written `0.1` and `0.2` is the double written
`0.30000000000000004`, which is not the double written `0.3`. -/
theorem add_tenths :
    JSNum.add (scanFloat "0.1") (scanFloat "0.2") = scanFloat "0.30000000000000004" ∧
    JSNum.add (scanFloat "0.1") (scanFloat "0.2") ≠ scanFloat "0.3" := by
  decide!

/-- C6 on three bodies.  `[7, {activityType: "Sale", amount: "12.5"}]` gives
one activity, total sales `12.5`, no delivery, and the five categories with
count `1` for `Sale` and `0` for the others.  A body with the sales `12.5`
and `7.25`, a delivery and a non-object gives three activities, total sales
`19.75` and one delivery.  A body with the sales `0.1` and `0.2` gives the
total sales `0.30000000000000004`. -/
theorem getActivityReport_aggregates_witness :
    (∃ report, (getActivityReport sampleHost (replyWith oneSaleBody)
        (.str "2024-01-01") (.str "2024-01-31")).outcome = .ok report ∧
      report.totalActivities = 1 ∧
      report.totalSales = .fin (25 / 2) ∧
      report.totalDeliveries = 0 ∧
      report.activityDistribution
        = [{ activityType := "Sale", count := 1 }, { activityType := "Delivery", count := 0 },
           { activityType := "Stock Update", count := 0 },
           { activityType := "Payment", count := 0 },
           { activityType := "Return", count := 0 }]) ∧
    (∃ report, (getActivityReport sampleHost (replyWith twoSalesBody)
        (.str "2024-01-01") (.str "2024-01-31")).outcome = .ok report ∧
      report.totalActivities = 3 ∧
      report.totalSales = .fin (25 / 2 + 29 / 4) ∧
      report.totalDeliveries = 1 ∧
      report.activityDistribution
        = [{ activityType := "Sale", count := 2 }, { activityType := "Delivery", count := 1 },
           { activityType := "Stock Update", count := 0 },
           { activityType := "Payment", count := 0 },
           { activityType := "Return", count := 0 }]) ∧
    (∃ report, (getActivityReport sampleHost (replyWith tenthsBody)
        (.str "2024-01-01") (.str "2024-01-31")).outcome = .ok report ∧
      report.totalActivities = 2 ∧
      report.totalSales = scanFloat "0.30000000000000004" ∧
      report.totalSales ≠ scanFloat "0.3") := by
  refine ⟨?_, ?_, ?_⟩
  · obtain ⟨report, hrun, htotal, _, _, hdist, _⟩ :=
      getActivityReport_aggregates sampleHost (replyWith oneSaleBody)
        (.str "2024-01-01") (.str "2024-01-31") oneSaleBody rfl oneSaleBody_converts
    have hrep : report = oneSaleReport :=
      Except.ok.inj (hrun.symm.trans oneSaleBody_report)
    refine ⟨report, hrun, htotal.trans rfl, ?_, ?_, hdist.trans rfl⟩
    · rw [hrep]
      rfl
    · rw [hrep]
      rfl
  · obtain ⟨report, hrun, htotal, _, hdel, hdist, hexact⟩ :=
      getActivityReport_aggregates sampleHost (replyWith twoSalesBody)
        (.str "2024-01-01") (.str "2024-01-31") twoSalesBody rfl twoSalesBody_converts
    have hrep : report = twoSalesReport :=
      Except.ok.inj (hrun.symm.trans twoSalesBody_report)
    refine ⟨report, hrun, htotal.trans rfl, ?_, ?_, hdist.trans rfl⟩
    · have hsum := hexact [25 / 2, 29 / 4] (by rw [hrep]; rfl) (by decide!)
      simpa using hsum
    · rw [hdel, hrep]
      rfl
  · obtain ⟨report, hrun, htotal, hsales, _, _, _⟩ :=
      getActivityReport_aggregates sampleHost (replyWith tenthsBody)
        (.str "2024-01-01") (.str "2024-01-31") tenthsBody rfl tenthsBody_converts
    have hrep : report = tenthsReport :=
      Except.ok.inj (hrun.symm.trans tenthsBody_report)
    have hfold : report.totalSales = JSNum.add (scanFloat "0.1") (scanFloat "0.2") := by
      rw [hsales, hrep]
      with_unfolding_all rfl
    refine ⟨report, hrun, htotal.trans rfl, ?_, ?_⟩
    · rw [hfold]
      exact add_tenths.1
    · rw [hfold]
      exact add_tenths.2

/-- C8, refuted on closed bodies.  For the entry
`{_id: 0, date: "", activityType: "Sale", amount: "3"}`, which has an `_id`
and a `date`, the normalized element has the placeholder `temp-0.5` and the
host's current time; the object built for it has the property `_id` and no
property `id`; and for the body `[{activityType: "Sale", amount: {toString: 1}}]`,
which has one object-shaped entry, `data` is empty. -/
theorem getActivityReport_replaces_falsy_fields :
    ((getActivityReport sampleHost (replyWith falsyIdBody)
        (.str "2024-01-01") (.str "2024-01-31")).outcome.toOption.map (fun r => r.data))
      = some [falsyIdActivity] ∧
    (entriesOf falsyIdBody).map (fun a => getProp a "_id") = [.num (.fin 0)] ∧
    (entriesOf falsyIdBody).map (fun a => getProp a "date") = [.str ""] ∧
    falsyIdActivity._id = .str "temp-0.5" ∧
    falsyIdActivity.date = .str "2024-03-07T09:30:00.000Z" ∧
    getProp falsyIdActivity.toJS "id" = .undefined ∧
    getProp falsyIdActivity.toJS "_id" = .str "temp-0.5" ∧
    ((getActivityReport sampleHost (replyWith unprintableAmountBody)
        (.str "2024-01-01") (.str "2024-01-31")).outcome.toOption.map (fun r => r.data))
      = some [] ∧
    ((entriesOf unprintableAmountBody).filter isObjectShaped).length = 1 := by
  refine ⟨?_, rfl, rfl, rfl, rfl, rfl, rfl, ?_, rfl⟩
  · with_unfolding_all rfl
  · with_unfolding_all rfl

/-- C8 as amended, on the body `[7, {activityType: "Sale", amount: "12.5"}]`,
whose object-shaped entry is normalized, and on the body
`[{activityType: "Sale", amount: {toString: 1}}]`, for which the call resolves
with the zero-value report. -/
theorem getActivityReport_normalizes_witness :
    (∃ report, (getActivityReport sampleHost (replyWith oneSaleBody)
        (.str "2024-01-01") (.str "2024-01-31")).outcome = .ok report ∧
      List.Forall₂ (NormalizedFrom sampleHost)
        [.obj [("activityType", .str "Sale"), ("amount", .str "12.5")]] report.data) ∧
    (getActivityReport sampleHost (replyWith unprintableAmountBody)
        (.str "2024-01-01") (.str "2024-01-31")).outcome = .ok emptyActivityReport :=
  ⟨(getActivityReport_normalizes sampleHost (replyWith oneSaleBody)
      (.str "2024-01-01") (.str "2024-01-31") oneSaleBody rfl).1 oneSaleBody_converts,
   (getActivityReport_normalizes sampleHost (replyWith unprintableAmountBody)
      (.str "2024-01-01") (.str "2024-01-31") unprintableAmountBody rfl).2
      ⟨.obj [("activityType", .str "Sale"), ("amount", .obj [("toString", .num (.fin 1))])],
        List.mem_singleton.mpr rfl, rfl, cannotConvert, rfl⟩⟩

/-- C10 on the body `[7, {activityType: "Sale", amount: "12.5"}]`. -/
theorem getActivityReport_distribution_agrees_witness :
    ∃ report, (getActivityReport sampleHost (replyWith oneSaleBody)
        (.str "2024-01-01") (.str "2024-01-31")).outcome = .ok report ∧
      (∀ d ∈ report.activityDistribution,
        d.count
          = (report.data.filter (fun a => strictEqStr a.activityType d.activityType)).length) ∧
      (∀ d ∈ report.activityDistribution, d.activityType = "Delivery" →
        d.count = report.totalDeliveries) ∧
      (report.activityDistribution.map (fun d => d.count)).sum ≤ report.totalActivities ∧
      report.activityDistribution.map (fun d => d.activityType)
        = ["Sale", "Delivery", "Stock Update", "Payment", "Return"] := by
  obtain ⟨report, hrun, hcount, hdel, hsum, hfive⟩ :=
    getActivityReport_distribution_agrees sampleHost (replyWith oneSaleBody)
      (.str "2024-01-01") (.str "2024-01-31")
  exact ⟨report, hrun, hcount, hdel, hsum, hfive oneSaleBody rfl oneSaleBody_converts⟩

/-! ## The filtered list queries -/

theorem getProp_filterSet (fs : FilterSet) (k : String) :
    getProp fs.toJS k = (fs.value k).toJS := by
  unfold FilterSet.toJS FilterSet.value getProp getField
  induction fs with
  | nil => rfl
  | cons p rest ih =>
    obtain ⟨k0, v0⟩ := p
    by_cases hk : k = k0
    · subst hk
      simp [List.lookup]
    · have hb : (k == k0) = false := by simpa using hk
      simpa [List.lookup, hb] using ih

theorem toStringJS_scalar (f : JSNum → String) (v : Scalar) :
    toStringJS f v.toJS = .ok (v.print f) := by
  cases v <;> rfl

/-- One `append` line on a FilterSet: the pair is added exactly when the value
is truthy. -/
theorem appendFilter_filterSet (h : Host) (fs : FilterSet) (q : List (String × String))
    (k : String) :
    appendFilter h fs.toJS q k
      = .ok (if truthy (fs.value k).toJS = true
          then q ++ [(k, (fs.value k).print h.numToString)] else q) := by
  unfold appendFilter
  rw [getProp_filterSet, toStringJS_scalar]
  split <;> rfl

theorem fetchData_calls (api : Transport) (url : String) :
    (fetchData api url).calls = [plainRequest url] := by
  unfold fetchData
  cases api (plainRequest url) <;> rfl

theorem formEncode_filter_keys :
    formEncode "startDate" = "startDate" ∧ formEncode "endDate" = "endDate"
      ∧ formEncode "supplier" = "supplier" ∧ formEncode "product" = "product"
      ∧ formEncode "paymentStatus" = "paymentStatus" ∧ formEncode "customer" = "customer" := by
  decide

/-- C9 as amended: for every FilterSet the URL requested by `getStockIns` is
`/api/stock-ins?` followed by the parameters `key=value`, joined by `&`, of
the keys `startDate`, `endDate`, `supplier`, `product`, `paymentStatus`, in
that order, whose value is truthy, the value being printed as a string and
URL-encoded; a key that is absent or whose value is falsy contributes
nothing.  The same holds for `getStockOuts` with `/api/stock-outs?` and the
keys `startDate`, `endDate`, `product`, `customer`.  Exactly one request is
made. -/
theorem stock_queries_hold_truthy_filters (h : Host) (api : Transport) (fs : FilterSet) :
    (getStockIns h api fs.toJS).calls
      = [plainRequest ("/api/stock-ins?" ++ expectedQuery h fs
          ["startDate", "endDate", "supplier", "product", "paymentStatus"])] ∧
    (getStockOuts h api fs.toJS).calls
      = [plainRequest ("/api/stock-outs?" ++ expectedQuery h fs
          ["startDate", "endDate", "product", "customer"])] := by
  obtain ⟨e1, e2, e3, e4, e5, e6⟩ := formEncode_filter_keys
  have hins : getStockIns h api fs.toJS
      = match (do
          let q ← appendFilter h fs.toJS [] "startDate"
          let q ← appendFilter h fs.toJS q "endDate"
          let q ← appendFilter h fs.toJS q "supplier"
          let q ← appendFilter h fs.toJS q "product"
          appendFilter h fs.toJS q "paymentStatus" : Except Fields (List (String × String))) with
        | .error e => ⟨.error e, []⟩
        | .ok queryParams =>
          fetchData api ("/api/stock-ins?" ++ searchParamsToString queryParams) := rfl
  have houts : getStockOuts h api fs.toJS
      = match (do
          let q ← appendFilter h fs.toJS [] "startDate"
          let q ← appendFilter h fs.toJS q "endDate"
          let q ← appendFilter h fs.toJS q "product"
          appendFilter h fs.toJS q "customer" : Except Fields (List (String × String))) with
        | .error e => ⟨.error e, []⟩
        | .ok queryParams =>
          fetchData api ("/api/stock-outs?" ++ searchParamsToString queryParams) := rfl
  constructor
  · rw [hins]
    simp only [appendFilter_filterSet, bind, Except.bind, fetchData_calls]
    by_cases h1 : truthy (fs.value "startDate").toJS = true <;>
    by_cases h2 : truthy (fs.value "endDate").toJS = true <;>
    by_cases h3 : truthy (fs.value "supplier").toJS = true <;>
    by_cases h4 : truthy (fs.value "product").toJS = true <;>
    by_cases h5 : truthy (fs.value "paymentStatus").toJS = true <;>
    simp [h1, h2, h3, h4, h5, expectedQuery, searchParamsToString, e1, e2, e3, e4, e5]
  · rw [houts]
    simp only [appendFilter_filterSet, bind, Except.bind, fetchData_calls]
    by_cases h1 : truthy (fs.value "startDate").toJS = true <;>
    by_cases h2 : truthy (fs.value "endDate").toJS = true <;>
    by_cases h4 : truthy (fs.value "product").toJS = true <;>
    by_cases h6 : truthy (fs.value "customer").toJS = true <;>
    simp [h1, h2, h4, h6, expectedQuery, searchParamsToString, e1, e2, e4, e6]

/-- C9, refuted on the FilterSet `{product: 0, supplier: "Acme & Co"}`: the
key `product` is set, to `0`, and the requested URL has no `product`
parameter. -/
theorem getStockIns_omits_zero_filter :
    zeroProductFilters.value "product" = .num (.fin 0) ∧
    (getStockIns sampleHost (replyWith (.arr [])) zeroProductFilters.toJS).calls
      = [plainRequest "/api/stock-ins?supplier=Acme+%26+Co"] := by
  constructor
  · rfl
  · with_unfolding_all rfl

end BusinessApp
